import Mathlib

/-!
# Voice orchestration service: turn processing

A shallow embedding of `voice-orchestration-service/main.go`, `internal/models/models.go`
and `internal/utils/utils.go`.

Conventions of the embedding

* Go `string` is `String`; a Go `error` is carried as its message (`String`).
* Go `float64` fields are only ever assigned the literals `1.0` and `0.1` or copied, never
  computed with; they are carried as `Rat`.
* `time.Time` is an `Int` (nanoseconds); every reading of `time.Now()` is supplied by the
  environment.
* Go `int` is a 64-bit two's-complement integer: it is an `Int` and `CurrentTurnIndex++`
  wraps modulo `2^64`.
* A nil pointer / nil map is `none`.
* Firestore is a map from document identifier to stored `ConversationState`.
* Every collaborator reached through the network or the clock (Firestore, Dialogflow CX,
  the embedding model, the vector index) is a field of `Env`, which fixes the behaviour
  that collaborator shows during one request.
-/

namespace Kairosia

/-! ## Outcomes of Go calls -/

/-- Outcome of a Go call that returns `(value, error)` and may also panic at run time. -/
inductive Res (α : Type) where
  | ok (a : α)
  | err (msg : String)
  | panic
  deriving Repr, DecidableEq

/-- Go `float64`, carried exactly. -/
abbrev Float64 := Rat

/-- Go `time.Time`, as nanoseconds. -/
abbrev Time := Int

/-- Go `int` increment on a 64-bit platform: `x++` in two's complement. -/
def incrInt (x : Int) : Int := (x + 1 + 2 ^ 63) % 2 ^ 64 - 2 ^ 63

/-! ## internal/models -/

/-- Go `interface{}` values as produced by `utils.ProtoValueToInterface`. -/
inductive Value where
  | null
  | number (x : Float64)
  | str (s : String)
  | bool (b : Bool)
  | struct (fields : Option (List (String × Value)))
  | list (vs : List Value)
  deriving Repr

/-- Go `map[string]interface{}`; `none` is the nil map. -/
abbrev GoMap := Option (List (String × Value))

/-- Go map indexing `m[key]`: the value stored under `key`, if any. Indexing a nil map
finds nothing. -/
def GoMap.get (m : GoMap) (key : String) : Option Value :=
  match m with
  | none => none
  | some kvs => (kvs.find? (fun kv => kv.1 == key)).map (fun kv => kv.2)

/-- Go `models.VoiceRequest`. -/
structure VoiceRequest where
  CallSid : String
  AccountSid : String := ""
  From : String := ""
  To : String := ""
  Direction : String := ""
  CallStatus : String := ""
  ApiVersion : String := ""
  RecordingUrl : String := ""
  RecordingSid : String := ""
  RecordingDuration : String := ""
  Digits : String := ""
  SpeechResult : String := ""
  deriving Repr, DecidableEq

/-- Go `models.TranscriptEntry`. A nil `Embedding` slice and an empty one are both `[]`. -/
structure TranscriptEntry where
  Speaker : String
  Text : String
  Timestamp : Time
  Confidence : Float64
  Embedding : List Float64 := []
  deriving Repr, DecidableEq

/-- Go `models.ConversationState`. -/
structure ConversationState where
  CallSid : String
  TenantID : String
  FromNumber : String
  ToNumber : String
  StartTimestamp : Time
  LastUpdateTimestamp : Time
  DialogflowSessionID : String
  CurrentTurnIndex : Int
  RecentTurns : List TranscriptEntry
  HandoffOccurred : Bool
  HandoffReason : String := ""
  HandoffTimestamp : Option Time := none
  deriving Repr, DecidableEq

/-- Go `models.DialogflowQueryResult`. -/
structure DialogflowQueryResult where
  SessionID : String
  FlowID : String := ""
  IntentName : String := ""
  IntentConfidence : Float64 := 0
  Parameters : GoMap := none
  PageID : String := ""
  ResponseText : String
  CustomPayload : GoMap := none
  deriving Repr

/-- Go `models.LiveAgentHandoffPayload`. -/
structure LiveAgentHandoffPayload where
  Action : String
  TransferNumber : String
  Reason : String
  PreserveContext : Bool
  deriving Repr, DecidableEq

/-- Go `models.VectorSearchMatch`. -/
structure VectorSearchMatch where
  ID : String
  Distance : Float64
  Text : String
  Metadata : GoMap := none
  deriving Repr

/-- Go `models.TwiMLSay`. -/
structure TwiMLSay where
  Voice : String := ""
  Language : String := ""
  Value : String := ""
  deriving Repr, DecidableEq

/-- Go `models.TwiMLGather`. -/
structure TwiMLGather where
  Input : String := ""
  Timeout : String := ""
  NumDigits : String := ""
  Action : String := ""
  Method : String := ""
  Language : String := ""
  Hints : String := ""
  ProfanityFilter : String := ""
  SpeechTimeout : String := ""
  Say : Option TwiMLSay := none
  deriving Repr, DecidableEq

/-- Go `models.TwiMLDial`. -/
structure TwiMLDial where
  Action : String := ""
  Method : String := ""
  Timeout : String := ""
  CallerId : String := ""
  Record : String := ""
  Number : String := ""
  deriving Repr, DecidableEq

/-- Go `models.TwiMLHangup`. -/
structure TwiMLHangup where
  deriving Repr, DecidableEq

/-- Go `models.TwiMLResponse`: the response script. `Say` is the Speak node, `Gather` the
Listen node, `Dial` the Transfer node and `Hangup` the End node. -/
structure TwiMLResponse where
  Say : Option TwiMLSay := none
  Gather : Option TwiMLGather := none
  Dial : Option TwiMLDial := none
  Hangup : Option TwiMLHangup := none
  deriving Repr, DecidableEq

/-! ## internal/utils -/

/-- Go `utils.GenerateSessionID`. -/
def GenerateSessionID (callSid : String) : String :=
  "twilio-" ++ callSid

/-! ## Configuration (the package-level variables set in `init`) -/

/-- The package-level configuration variables of the voice orchestration service. -/
structure Config where
  projectID : String := ""
  region : String := "us-central1"
  dialogflowAgentID : String := ""
  dialogflowLocation : String := "us-central1"
  dialogflowDefaultLanguage : String := "es-CL"
  sttLanguageCode : String := "es-CL"
  sttModel : String := "phone_call"
  ttsLanguageCode : String := "es-CL"
  ttsVoiceName : String := "es-CL-Standard-A"
  firestoreCollection : String := "conversation_states"
  vertexAIVectorSearchDimension : Int := 768
  vertexAIVectorSearchNeighbors : Int := 5
  conversationHistoryServiceURL : String := ""
  transferPhoneNumber : String := "+56912345678"
  deriving Repr, DecidableEq

/-! ## Response script builder -/

/-- Go `generateWelcomeTwiML`. -/
def generateWelcomeTwiML (cfg : Config) : TwiMLResponse :=
  { Say := some
      { Voice := "Polly.Lupe"
        Language := cfg.ttsLanguageCode
        Value := "Hola, soy KairosIA, su asistente virtual. ¿En qué puedo ayudarle hoy?" }
    Gather := some
      { Input := "speech"
        Language := cfg.sttLanguageCode
        Timeout := "5"
        SpeechTimeout := "auto"
        Say := some
          { Voice := "Polly.Lupe"
            Language := cfg.ttsLanguageCode
            Value := "Por favor, dígame en qué puedo ayudarle." } } }

/-- Go `generateResponseTwiML`. -/
def generateResponseTwiML (cfg : Config) (responseText : String) : TwiMLResponse :=
  { Say := some
      { Voice := "Polly.Lupe"
        Language := cfg.ttsLanguageCode
        Value := responseText }
    Gather := some
      { Input := "speech"
        Language := cfg.sttLanguageCode
        Timeout := "5"
        SpeechTimeout := "auto" } }

/-- Go `generateHandoffTwiML`. -/
def generateHandoffTwiML (cfg : Config) (handoffPayload : LiveAgentHandoffPayload)
    (responseText : String) : TwiMLResponse :=
  { Say := some
      { Voice := "Polly.Lupe"
        Language := cfg.ttsLanguageCode
        Value := responseText ++
          " Le transferiré con un agente humano. Por favor, espere un momento." }
    Dial := some
      { CallerId := "\x7b\x7bFrom\x7d\x7d"
        Number := handoffPayload.TransferNumber } }

/-- Go `generateErrorTwiML`. -/
def generateErrorTwiML (cfg : Config) (errorMessage : String) : TwiMLResponse :=
  { Say := some
      { Voice := "Polly.Lupe"
        Language := cfg.ttsLanguageCode
        Value := errorMessage }
    Gather := some
      { Input := "speech"
        Language := cfg.sttLanguageCode
        Timeout := "5"
        SpeechTimeout := "auto" } }

/-! ## Protocol-buffer values and their conversion (`internal/utils`) -/

/-- A `structpb.Value`: `unset` is a value whose `Kind` is nil; a `structpb.Struct` is its
field list, and `none` is the nil `*structpb.Struct`. -/
inductive PValue where
  | unset
  | null
  | number (x : Float64)
  | str (s : String)
  | bool (b : Bool)
  | struct (s : Option (List (String × PValue)))
  | list (vs : List PValue)
  deriving Repr

/-- A `*structpb.Struct`; `none` is nil. -/
abbrev PStruct := Option (List (String × PValue))

mutual
/-- Go `utils.ProtoValueToInterface`. -/
def ProtoValueToInterface : PValue → Value
  | .unset => .null
  | .null => .null
  | .number x => .number x
  | .str s => .str s
  | .bool b => .bool b
  | .struct none => .struct none
  | .struct (some fs) => .struct (some (protoFieldsToMap fs))
  | .list vs => .list (protoValuesToSlice vs)
/-- The loop of `utils.ProtoStructToMap` over the fields of a struct. -/
def protoFieldsToMap : List (String × PValue) → List (String × Value)
  | [] => []
  | (k, v) :: rest => (k, ProtoValueToInterface v) :: protoFieldsToMap rest
/-- The loop of `utils.ProtoValueToInterface` over the values of a list. -/
def protoValuesToSlice : List PValue → List Value
  | [] => []
  | v :: rest => ProtoValueToInterface v :: protoValuesToSlice rest
end

/-- Go `utils.ProtoStructToMap`. -/
def ProtoStructToMap (s : PStruct) : GoMap :=
  match s with
  | none => none
  | some fs => some (protoFieldsToMap fs)

/-! ## Dialogflow CX request and response -/

/-- A Dialogflow response message: `Text` is the text list of the message's text part
(`none` when the message has no text part), `Payload` its custom payload. -/
structure ResponseMessage where
  Text : Option (List String) := none
  Payload : PStruct := none
  deriving Repr

/-- The `Match` of a query result: `Intent` is the display name of the matched intent
(`none` when the intent pointer is nil). -/
structure IntentMatch where
  Intent : Option String := none
  Confidence : Float64 := 0
  deriving Repr

/-- The `QueryResult` of a detect-intent response. -/
structure QueryResult where
  ResponseMessages : List ResponseMessage := []
  CurrentPage : Option String := none
  Match : Option IntentMatch := none
  Parameters : PStruct := none
  deriving Repr

/-- A detect-intent response. -/
structure DetectIntentResponse where
  QueryResult : Option QueryResult
  deriving Repr

/-- A detect-intent request: session path, query text, language code and the
optional query parameters. -/
structure DetectIntentRequest where
  Session : String
  Text : String
  LanguageCode : String
  QueryParams : PStruct := none
  deriving Repr

/-! ## The environment of one request -/

/-- The Firestore collection: document identifier to stored state. -/
abbrev Store := String → Option ConversationState

/-- The effect of a successful `docRef.Set`. -/
def Store.set (store : Store) (doc : String) (state : ConversationState) : Store :=
  fun d => if d = doc then some state else store d

/-- The behaviour of the collaborators during one request. An `Option String` field is the
error a call returns (`none`: the call succeeds). -/
structure Env where
  /-- Error of `firestore.NewClient` in `getOrCreateConversationState`. -/
  newClientGetErr : Option String := none
  /-- Error of `docRef.Get` other than the document being absent. -/
  docGetErr : Option String := none
  /-- Error of `doc.DataTo`. -/
  dataToErr : Option String := none
  /-- Error of `docRef.Set` in `getOrCreateConversationState`. -/
  docCreateErr : Option String := none
  /-- Error of `firestore.NewClient` in `updateConversationState`. -/
  newClientUpdateErr : Option String := none
  /-- Error of `docRef.Set` in `updateConversationState`. -/
  docUpdateErr : Option String := none
  /-- Reading of `time.Now()` when a state is created. -/
  nowCreate : Time := 0
  /-- Reading of `time.Now()` for the user entry. -/
  nowUser : Time := 0
  /-- Reading of `time.Now()` for the agent entry. -/
  nowAi : Time := 0
  /-- Reading of `time.Now()` for `LastUpdateTimestamp`. -/
  nowUpdate : Time := 0
  /-- Reading of `time.Now()` for `HandoffTimestamp`. -/
  nowHandoff : Time := 0
  /-- The embedding generator: outcome of its `n`-th call in the request, on a text. -/
  embed : Nat → String → Res (List Float64)
  /-- The context retriever: embedding, tenant and caller number to matches. -/
  search : List Float64 → String → String → Except String (List VectorSearchMatch)
  /-- Error of `dialogflow.NewSessionsService`. -/
  newSessionsServiceErr : Option String := none
  /-- Error of `structpb.NewStruct` on the additional-context map. -/
  newStructErr : Option String := none
  /-- The outcome of `client.DetectIntent`. -/
  detectIntent : DetectIntentRequest → Except String DetectIntentResponse

/-! ## Session store -/

/-- Go `docRef.Get`: fails when the read fails or the document does not exist. -/
def docGet (env : Env) (store : Store) (doc : String) : Except String ConversationState :=
  match env.docGetErr with
  | some e => .error e
  | none =>
    match store doc with
    | none => .error "NotFound"
    | some d => .ok d

/-- Go `getOrCreateConversationState`: the returned value, the store afterwards and the
states handed to `docRef.Set`. -/
def getOrCreateConversationState (env : Env) (store : Store) (voiceRequest : VoiceRequest) :
    Except String ConversationState × Store × List ConversationState :=
  match env.newClientGetErr with
  | some e => (.error ("error al crear el cliente de Firestore: " ++ e), store, [])
  | none =>
    match docGet env store voiceRequest.CallSid with
    | .ok doc =>
      match env.dataToErr with
      | some e =>
        (.error ("error al convertir el documento a ConversationState: " ++ e), store, [])
      | none => (.ok doc, store, [])
    | .error _ =>
      let now := env.nowCreate
      let state : ConversationState :=
        { CallSid := voiceRequest.CallSid
          TenantID := "default"
          FromNumber := voiceRequest.From
          ToNumber := voiceRequest.To
          StartTimestamp := now
          LastUpdateTimestamp := now
          DialogflowSessionID := GenerateSessionID voiceRequest.CallSid
          CurrentTurnIndex := 0
          RecentTurns := []
          HandoffOccurred := false }
      match env.docCreateErr with
      | some e =>
        (.error ("error al guardar el estado de la conversación: " ++ e), store, [state])
      | none => (.ok state, store.set voiceRequest.CallSid state, [state])

/-- Go `updateConversationState`: the returned error, the store afterwards and the states
handed to `docRef.Set`. -/
def updateConversationState (env : Env) (store : Store) (state : ConversationState) :
    Option String × Store × List ConversationState :=
  match env.newClientUpdateErr with
  | some e => (some ("error al crear el cliente de Firestore: " ++ e), store, [])
  | none =>
    match env.docUpdateErr with
    | some e =>
      (some ("error al actualizar el estado de la conversación: " ++ e), store, [state])
    | none => (none, store.set state.CallSid state, [state])

/-! ## NLU client -/

/-- Go `queryDialogflow`. Reading `response.QueryResult.ResponseMessages[0].Text.Text[0]`
panics when the result is nil, the message list is empty, the first message has no text
part or its text list is empty; reading `Match.Intent.DisplayName` panics when the intent
is nil. -/
def queryDialogflow (cfg : Config) (env : Env) (sessionID query contextText : String) :
    Res DialogflowQueryResult :=
  match env.newSessionsServiceErr with
  | some e => .err ("error al crear el cliente de Dialogflow CX: " ++ e)
  | none =>
    let sessionPath := "projects/" ++ cfg.projectID ++ "/locations/" ++
      cfg.dialogflowLocation ++ "/agents/" ++ cfg.dialogflowAgentID ++ "/sessions/" ++ sessionID
    let queryParams : PStruct :=
      if contextText ≠ "" then
        match env.newStructErr with
        | some _ => none
        | none => some [("additional_context", PValue.str contextText)]
      else none
    let request : DetectIntentRequest :=
      { Session := sessionPath
        Text := query
        LanguageCode := cfg.dialogflowDefaultLanguage
        QueryParams := queryParams }
    match env.detectIntent request with
    | .error e => .err ("error al detectar la intención: " ++ e)
    | .ok response =>
      match response.QueryResult with
      | none => .panic
      | some qr =>
        match qr.ResponseMessages with
        | [] => .panic
        | m0 :: _ =>
          match m0.Text with
          | none => .panic
          | some [] => .panic
          | some (t0 :: _) =>
            let queryResult : DialogflowQueryResult :=
              { SessionID := sessionID, ResponseText := t0 }
            let queryResult :=
              match qr.CurrentPage with
              | some name => { queryResult with PageID := name }
              | none => queryResult
            match qr.Match with
            | some { Intent := none, .. } => .panic
            | m =>
              let queryResult :=
                match m with
                | some { Intent := some displayName, Confidence := c } =>
                  { queryResult with IntentName := displayName, IntentConfidence := c }
                | _ => queryResult
              let queryResult :=
                match qr.Parameters with
                | some ps => { queryResult with Parameters := ProtoStructToMap (some ps) }
                | none => queryResult
              let queryResult :=
                match qr.ResponseMessages.find? (fun message => message.Payload.isSome) with
                | some message =>
                  { queryResult with CustomPayload := ProtoStructToMap message.Payload }
                | none => queryResult
              .ok queryResult

/-! ## Embedding generator and context retriever, as they stand in the source -/

/-- Go `generateEmbedding`: a vector of `vertexAIVectorSearchDimension` entries `0.1`.
`make` panics on a negative length. -/
def generateEmbedding (cfg : Config) (_text : String) : Res (List Float64) :=
  if cfg.vertexAIVectorSearchDimension < 0 then .panic
  else .ok (List.replicate cfg.vertexAIVectorSearchDimension.toNat (1 / 10))

/-- Go `searchVectorIndex`: no matches. -/
def searchVectorIndex (_embedding : List Float64) (_tenantID _fromNumber : String) :
    Except String (List VectorSearchMatch) :=
  .ok []

/-- The environment in which the embedding generator and the context retriever are the
two functions of the source. -/
def Env.withSourceStubs (cfg : Config) (env : Env) : Env :=
  { env with
    embed := fun _ text => generateEmbedding cfg text
    search := searchVectorIndex }

/-! ## Turn processor -/

/-- What the handler wrote on the HTTP response: a script, or nothing because it
panicked. -/
inductive Response where
  | twiml (t : TwiMLResponse)
  | panicked
  deriving Repr, DecidableEq

/-- One call of `queryDialogflow`. -/
structure NLUCall where
  sessionID : String
  query : String
  contextText : String
  deriving Repr, DecidableEq

/-- What one run of `HandleVoiceRequest` did: its response, the store afterwards, the
states handed to `docRef.Set` (in order), the calls of `queryDialogflow`, and the
arguments of the `sendTranscriptToHistoryService` goroutines it started. -/
structure Outcome where
  response : Response
  store : Store
  saved : List ConversationState
  nluCalls : List NLUCall := []
  historyCalls : List (ConversationState × DialogflowQueryResult) := []

/-- Go `respondWithTwiML`: marshalling these string-only structures cannot fail. -/
def respondWithTwiML (twiml : TwiMLResponse) : Response :=
  .twiml twiml

/-- Go `respondWithError`. -/
def respondWithError (cfg : Config) (_err : String) : Response :=
  respondWithTwiML (generateErrorTwiML cfg
    "Lo siento, ha ocurrido un error. Por favor, inténtelo de nuevo más tarde.")

/-- The type assertion `v.(string)` on a map entry. -/
def assertString : Option Value → Option String
  | some (.str s) => some s
  | _ => none

/-- The type assertion `v.(bool)` on a map entry. -/
def assertBool : Option Value → Option Bool
  | some (.bool b) => some b
  | _ => none

/-- Lines 121–134 of `HandleVoiceRequest`: the user input of an event, `none` when the
event carries neither speech nor digits. -/
def userInputOf (voiceRequest : VoiceRequest) : Option String :=
  if voiceRequest.SpeechResult ≠ "" then some voiceRequest.SpeechResult
  else if voiceRequest.Digits ≠ "" then some ("Presionó " ++ voiceRequest.Digits)
  else none

/-- Lines 157–174 of `HandleVoiceRequest`: the context text for an embedding. -/
def contextTextOf (env : Env) (userEmbedding : List Float64) (tenantID fromNumber : String) :
    String :=
  if userEmbedding.length > 0 then
    match env.search userEmbedding tenantID fromNumber with
    | .error _ => ""
    | .ok results =>
      if results.length > 0 then
        results.foldl (fun acc m => acc ++ ("- " ++ m.Text ++ "\n"))
          "Contexto adicional de conversaciones anteriores:\n"
      else ""
  else ""

/-- Lines 205–231 of `HandleVoiceRequest`: the handoff payload built from a custom
payload, if it asks for a handoff. -/
def handoffPayloadOf (cfg : Config) (customPayload : GoMap) : Option LiveAgentHandoffPayload :=
  match customPayload with
  | none => none
  | some _ =>
    match assertString (customPayload.get "action") with
    | some action =>
      if action = "LiveAgentHandoff" then
        let handoffPayload : LiveAgentHandoffPayload :=
          { Action := action
            TransferNumber := cfg.transferPhoneNumber
            Reason := "El cliente ha solicitado hablar con un agente humano"
            PreserveContext := true }
        let handoffPayload :=
          match assertString (customPayload.get "transferNumber") with
          | some transferNumber =>
            if transferNumber ≠ "" then { handoffPayload with TransferNumber := transferNumber }
            else handoffPayload
          | none => handoffPayload
        let handoffPayload :=
          match assertString (customPayload.get "reason") with
          | some reason =>
            if reason ≠ "" then { handoffPayload with Reason := reason } else handoffPayload
          | none => handoffPayload
        let handoffPayload :=
          match assertBool (customPayload.get "preserveContext") with
          | some preserveContext => { handoffPayload with PreserveContext := preserveContext }
          | none => handoffPayload
        some handoffPayload
      else none
    | none => none

/-- Lines 184–264 of `HandleVoiceRequest`: the rest of a turn once Dialogflow has
answered. `conversationState` already holds the user entry and the incremented index. -/
def finishTurn (cfg : Config) (env : Env) (store : Store) (saved : List ConversationState)
    (nluCalls : List NLUCall) (conversationState : ConversationState)
    (dialogflowResponse : DialogflowQueryResult) : Outcome :=
  let aiTranscriptEntry : TranscriptEntry :=
    { Speaker := "ai"
      Text := dialogflowResponse.ResponseText
      Timestamp := env.nowAi
      Confidence := 1 }
  match env.embed 1 dialogflowResponse.ResponseText with
  | .panic => { response := .panicked, store := store, saved := saved, nluCalls := nluCalls }
  | aiEmbedding =>
    let aiTranscriptEntry :=
      match aiEmbedding with
      | .ok e => { aiTranscriptEntry with Embedding := e }
      | _ => aiTranscriptEntry
    let conversationState :=
      { conversationState with
        RecentTurns := conversationState.RecentTurns ++ [aiTranscriptEntry]
        LastUpdateTimestamp := env.nowUpdate }
    let handoffPayload := handoffPayloadOf cfg dialogflowResponse.CustomPayload
    let conversationState :=
      match handoffPayload with
      | some hp =>
        { conversationState with
          HandoffOccurred := true
          HandoffReason := hp.Reason
          HandoffTimestamp := some env.nowHandoff }
      | none => conversationState
    let upd := updateConversationState env store conversationState
    let twiml :=
      match handoffPayload with
      | some hp => generateHandoffTwiML cfg hp dialogflowResponse.ResponseText
      | none => generateResponseTwiML cfg dialogflowResponse.ResponseText
    { response := respondWithTwiML twiml
      store := upd.2.1
      saved := saved ++ upd.2.2
      nluCalls := nluCalls
      historyCalls := [(conversationState, dialogflowResponse)] }

/-- Lines 136–174 of `HandleVoiceRequest`: the user entry is built, embedded and appended,
the turn index incremented and the context text assembled. The result is the state and
the context text with which Dialogflow is then queried, or `none` when the embedding
generator panicked. -/
def prepareTurn (env : Env) (conversationState : ConversationState) (userInput : String) :
    Option (ConversationState × String) :=
  let userTranscriptEntry : TranscriptEntry :=
    { Speaker := "user"
      Text := userInput
      Timestamp := env.nowUser
      Confidence := 1 }
  match env.embed 0 userInput with
  | .panic => none
  | embedded =>
    let userEmbedding : List Float64 :=
      match embedded with
      | .ok e => e
      | _ => []
    let userTranscriptEntry :=
      match embedded with
      | .ok e => { userTranscriptEntry with Embedding := e }
      | _ => userTranscriptEntry
    let conversationState :=
      { conversationState with
        RecentTurns := conversationState.RecentTurns ++ [userTranscriptEntry]
        CurrentTurnIndex := incrInt conversationState.CurrentTurnIndex }
    let contextText :=
      contextTextOf env userEmbedding conversationState.TenantID conversationState.FromNumber
    some (conversationState, contextText)

/-- Lines 136–264 of `HandleVoiceRequest`: a turn with user input `userInput` on the
state `conversationState` returned by `getOrCreateConversationState`. -/
def processTurn (cfg : Config) (env : Env) (store : Store) (saved : List ConversationState)
    (conversationState : ConversationState) (userInput : String) : Outcome :=
  match prepareTurn env conversationState userInput with
  | none => { response := .panicked, store := store, saved := saved }
  | some (conversationState, contextText) =>
    let nluCalls : List NLUCall :=
      [{ sessionID := conversationState.DialogflowSessionID
         query := userInput
         contextText := contextText }]
    match queryDialogflow cfg env conversationState.DialogflowSessionID userInput
        contextText with
    | .err e =>
      { response := respondWithError cfg e, store := store, saved := saved,
        nluCalls := nluCalls }
    | .panic => { response := .panicked, store := store, saved := saved, nluCalls := nluCalls }
    | .ok dialogflowResponse =>
      finishTurn cfg env store saved nluCalls conversationState dialogflowResponse

/-- Go `HandleVoiceRequest`, from the parsed `voiceRequest` on. -/
def HandleVoiceRequest (cfg : Config) (env : Env) (store : Store)
    (voiceRequest : VoiceRequest) : Outcome :=
  match getOrCreateConversationState env store voiceRequest with
  | (.error err, store, saved) =>
    { response := respondWithError cfg err, store := store, saved := saved }
  | (.ok conversationState, store, saved) =>
    if conversationState.CurrentTurnIndex = 0 then
      { response := respondWithTwiML (generateWelcomeTwiML cfg), store := store,
        saved := saved }
    else
      match userInputOf voiceRequest with
      | none =>
        { response := respondWithTwiML (generateErrorTwiML cfg
            "No se detectó ninguna entrada. Por favor, inténtelo de nuevo.")
          store := store, saved := saved }
      | some userInput => processTurn cfg env store saved conversationState userInput

/-! ## Vocabulary of the statements -/

/-- The load path of `getOrCreateConversationState`: the store holds `s` under the call
identifier of the event and client creation, `Get` and `DataTo` all succeed, so that `s`
is the state the handler works on. -/
def Loads (env : Env) (store : Store) (voiceRequest : VoiceRequest)
    (s : ConversationState) : Prop :=
  env.newClientGetErr = none ∧ env.docGetErr = none ∧ env.dataToErr = none ∧
    store voiceRequest.CallSid = some s

/-- The relation between the transcript and the turn index: two entries per turn. -/
def TurnsPaired (s : ConversationState) : Prop :=
  (s.RecentTurns.length : Int) = 2 * s.CurrentTurnIndex

/-! ## Concrete inputs -/

/-- The default configuration. -/
def defaultConfig : Config := {}

/-- The store with no document. -/
def emptyStore : Store := fun _ => none

/-- A Dialogflow answer with one text message. -/
def textAnswer : DetectIntentResponse :=
  { QueryResult := some { ResponseMessages := [{ Text := some ["Claro, le ayudo."] }] } }

/-- A Dialogflow answer with a text message and a handoff payload. -/
def handoffAnswer : DetectIntentResponse :=
  { QueryResult := some
      { ResponseMessages :=
          [{ Text := some ["Entendido."] },
           { Payload := some [("action", PValue.str "LiveAgentHandoff")] }] } }

/-- Collaborators that all work; the embedding generator and the context retriever are
the ones of the source, Dialogflow answers with `textAnswer`. -/
def workingEnv : Env :=
  { embed := fun _ text => generateEmbedding { vertexAIVectorSearchDimension := 2 } text
    search := searchVectorIndex
    detectIntent := fun _ => .ok textAnswer
    nowCreate := 100
    nowUser := 201
    nowAi := 202
    nowUpdate := 203
    nowHandoff := 204 }

/-- As `workingEnv`, with Dialogflow asking for a handoff. -/
def handoffEnv : Env :=
  { workingEnv with detectIntent := fun _ => .ok handoffAnswer }

/-- As `workingEnv`, with Dialogflow failing. -/
def failingNluEnv : Env :=
  { workingEnv with detectIntent := fun _ => .error "deadline exceeded" }

/-- A stored state in the middle of a call: one completed turn. -/
def midCallState : ConversationState :=
  { CallSid := "CA1"
    TenantID := "default"
    FromNumber := "+56911111111"
    ToNumber := "+56922222222"
    StartTimestamp := 100
    LastUpdateTimestamp := 150
    DialogflowSessionID := "twilio-CA1"
    CurrentTurnIndex := 1
    RecentTurns :=
      [{ Speaker := "user", Text := "hola", Timestamp := 140, Confidence := 1 },
       { Speaker := "ai", Text := "Hola, ¿en qué le ayudo?", Timestamp := 141, Confidence := 1 }]
    HandoffOccurred := false }

/-- A stored state of a call that was already handed off at time 160. -/
def handedOffState : ConversationState :=
  { midCallState with
    HandoffOccurred := true
    HandoffReason := "motivo anterior"
    HandoffTimestamp := some 160 }

/-- A stored state whose turn index is the largest `int`. -/
def maxIndexState : ConversationState :=
  { midCallState with CurrentTurnIndex := 9223372036854775807 }

/-- An event carrying speech. -/
def speechRequest : VoiceRequest :=
  { CallSid := "CA1", From := "+56911111111", To := "+56922222222",
    SpeechResult := "quiero hablar con un agente" }

/-- An event carrying digits only. -/
def digitsRequest : VoiceRequest :=
  { CallSid := "CA1", From := "+56911111111", To := "+56922222222", Digits := "42" }

/-- An event carrying neither speech nor digits. -/
def silentRequest : VoiceRequest :=
  { CallSid := "CA1", From := "+56911111111", To := "+56922222222" }

/-- The first event of call `CA1`, on the empty store. -/
def firstEventOutcome : Outcome :=
  HandleVoiceRequest defaultConfig workingEnv emptyStore silentRequest

/-- A later event of call `CA1` carrying speech, on the store left by the first event. -/
def secondEventOutcome : Outcome :=
  HandleVoiceRequest defaultConfig workingEnv firstEventOutcome.store speechRequest

/-- The agent entry of a turn: lines 184–199 of `HandleVoiceRequest`. -/
def agentEntryOf (env : Env) (r : DialogflowQueryResult) : TranscriptEntry :=
  match env.embed 1 r.ResponseText with
  | .ok e =>
    { Speaker := "ai", Text := r.ResponseText, Timestamp := env.nowAi, Confidence := 1,
      Embedding := e }
  | _ => { Speaker := "ai", Text := r.ResponseText, Timestamp := env.nowAi, Confidence := 1 }

/-- The state handed to `updateConversationState` at the end of a turn, from the state
`s1` that `prepareTurn` produced and the Dialogflow result `r`: lines 201–237. -/
def stateAfterTurn (cfg : Config) (env : Env) (s1 : ConversationState)
    (r : DialogflowQueryResult) : ConversationState :=
  match handoffPayloadOf cfg r.CustomPayload with
  | some hp =>
    { s1 with
      RecentTurns := s1.RecentTurns ++ [agentEntryOf env r]
      LastUpdateTimestamp := env.nowUpdate
      HandoffOccurred := true
      HandoffReason := hp.Reason
      HandoffTimestamp := some env.nowHandoff }
  | none =>
    { s1 with
      RecentTurns := s1.RecentTurns ++ [agentEntryOf env r]
      LastUpdateTimestamp := env.nowUpdate }

/-- The response script of a completed turn: lines 253–261. -/
def scriptAfterTurn (cfg : Config) (r : DialogflowQueryResult) : TwiMLResponse :=
  match handoffPayloadOf cfg r.CustomPayload with
  | some hp => generateHandoffTwiML cfg hp r.ResponseText
  | none => generateResponseTwiML cfg r.ResponseText

/-- The store holding `midCallState` for call `CA1`. -/
def midCallStore : Store := emptyStore.set "CA1" midCallState

/-- The store holding `handedOffState` for call `CA1`. -/
def handedOffStore : Store := emptyStore.set "CA1" handedOffState

/-- The store holding `maxIndexState` for call `CA1`. -/
def maxIndexStore : Store := emptyStore.set "CA1" maxIndexState

/-- What `queryDialogflow` returns for `textAnswer` in session `twilio-CA1`. -/
def textResult : DialogflowQueryResult :=
  { SessionID := "twilio-CA1", ResponseText := "Claro, le ayudo." }

/-- What `queryDialogflow` returns for `handoffAnswer` in session `twilio-CA1`. -/
def handoffResult : DialogflowQueryResult :=
  { SessionID := "twilio-CA1", ResponseText := "Entendido.",
    CustomPayload := some [("action", Value.str "LiveAgentHandoff")] }

/-- The call of `queryDialogflow` made for `speechRequest` in session `twilio-CA1`. -/
def speechCall : NLUCall :=
  { sessionID := "twilio-CA1", query := "quiero hablar con un agente", contextText := "" }

/-- A stored state of call `CA1` after five completed turns. -/
def laterTurnState : ConversationState :=
  { midCallState with CurrentTurnIndex := 5, LastUpdateTimestamp := 190 }

/-- The store holding `laterTurnState` for call `CA1`. -/
def laterTurnStore : Store := emptyStore.set "CA1" laterTurnState

/-- As `workingEnv`, with the write of `updateConversationState` failing. -/
def failingSaveEnv : Env :=
  { workingEnv with docUpdateErr := some "unavailable" }

/-- A configuration that differs from the default one outside the two language codes the
response scripts carry. -/
def otherProjectConfig : Config :=
  { projectID := "otro-proyecto", ttsVoiceName := "es-US-Standard-B",
    transferPhoneNumber := "+56200000000" }

/-- A handoff payload with a transfer number. -/
def samplePayload : LiveAgentHandoffPayload :=
  { Action := "LiveAgentHandoff", TransferNumber := "+56987654321",
    Reason := "El cliente ha solicitado hablar con un agente humano", PreserveContext := true }

/-- A turn of call `CA1` on the state with one completed turn: the event carries speech
and every collaborator works. -/
def turnOutcome : Outcome :=
  HandleVoiceRequest defaultConfig workingEnv midCallStore speechRequest

/-- The same event delivered a second time, on the store left by `turnOutcome`. -/
def redeliveredOutcome : Outcome :=
  HandleVoiceRequest defaultConfig workingEnv turnOutcome.store speechRequest

/-- The user entry that `workingEnv` gives for `speechRequest`. -/
def speechEntry : TranscriptEntry :=
  { Speaker := "user", Text := "quiero hablar con un agente", Timestamp := 201,
    Confidence := 1, Embedding := [1 / 10, 1 / 10] }

/-- The agent entry that `workingEnv` gives for `textAnswer`. -/
def answerEntry : TranscriptEntry :=
  { Speaker := "ai", Text := "Claro, le ayudo.", Timestamp := 202, Confidence := 1,
    Embedding := [1 / 10, 1 / 10] }

/-- The state of call `CA1` after `turnOutcome`. -/
def secondTurnState : ConversationState :=
  { midCallState with
    CurrentTurnIndex := 2
    LastUpdateTimestamp := 203
    RecentTurns := midCallState.RecentTurns ++ [speechEntry, answerEntry] }

/-- The state of call `CA1` after `redeliveredOutcome`. -/
def thirdTurnState : ConversationState :=
  { midCallState with
    CurrentTurnIndex := 3
    LastUpdateTimestamp := 203
    RecentTurns :=
      midCallState.RecentTurns ++ [speechEntry, answerEntry, speechEntry, answerEntry] }

/-- A successful Dialogflow answer without response messages. -/
def emptyAnswer : DetectIntentResponse :=
  { QueryResult := some { ResponseMessages := [] } }

/-- As `workingEnv`, with Dialogflow answering with `emptyAnswer`. -/
def emptyAnswerEnv : Env :=
  { workingEnv with detectIntent := fun _ => .ok emptyAnswer }

/-- The messages of `handoffAnswer` in the other order: the payload-bearing message
first, the text message second. -/
def payloadFirstAnswer : DetectIntentResponse :=
  { QueryResult := some
      { ResponseMessages :=
          [{ Payload := some [("action", PValue.str "LiveAgentHandoff")] },
           { Text := some ["Entendido."] }] } }

/-- As `workingEnv`, with Dialogflow answering with `payloadFirstAnswer`. -/
def payloadFirstEnv : Env :=
  { workingEnv with detectIntent := fun _ => .ok payloadFirstAnswer }

/-- Two matches of the context retriever. -/
def sampleMatches : List VectorSearchMatch :=
  [{ ID := "t1", Distance := 1 / 4, Text := "Pidió una factura." },
   { ID := "t2", Distance := 1 / 2, Text := "Cambió su plan." }]

/-- As `workingEnv`, with the context retriever returning `sampleMatches`. -/
def retrievingEnv : Env :=
  { workingEnv with search := fun _ _ _ => .ok sampleMatches }

/-! ## Telephone numbers (`internal/utils`) -/

/-- Go `utils.FormatPhoneNumber`. `digits` is `strings.Map` keeping the runes from `'0'` to
`'9'`; `strings.HasPrefix(phone, "+")` holds exactly when the first character is `'+'`;
the kept runes take one byte each, so `len(digits)` is their number and `digits[0]` the
first of them. -/
def FormatPhoneNumber (phone : String) : String :=
  let digits : List Char := phone.toList.filter (fun r => '0' ≤ r ∧ r ≤ '9')
  if phone.toList.head? ≠ some '+' then
    if digits.length = 9 ∧ (digits.head? = some '9' ∨ digits.head? = some '2') then
      "+56" ++ String.mk digits
    else "+" ++ String.mk digits
  else phone

/-- A string that is `'+'` followed by decimal digits only. -/
def plusThenDigits (s : String) : Bool :=
  match s.toList with
  | '+' :: rest => rest.all (fun r => '0' ≤ r ∧ r ≤ '9')
  | _ => false

/-! ## float64 arithmetic and durations (`time`) -/

/-- The integer nearest to `q`, the even one of the two when `q` is half-way. -/
def roundTiesEven (q : Rat) : Int :=
  if q - ⌊q⌋ < 1 / 2 then ⌊q⌋
  else if 1 / 2 < q - ⌊q⌋ then ⌊q⌋ + 1
  else if ⌊q⌋ % 2 = 0 then ⌊q⌋
  else ⌊q⌋ + 1

/-- The `float64` nearest to `q` (53 significant bits, ties to even), for `q` within the
exponent range of normal numbers: the result of a `float64` operation whose exact result
is `q`. -/
def roundFloat64 (q : Rat) : Float64 :=
  if q = 0 then 0
  else (roundTiesEven (q * 2 ^ (52 - Int.log 2 |q|)) : Rat) * 2 ^ (Int.log 2 |q| - 52)

/-- Go `Time.Sub` on wall-clock readings, as a `Duration` in nanoseconds: the difference,
or the largest or smallest `Duration` when the difference does not fit 64 bits. -/
def timeSub (t u : Time) : Int :=
  if t - u > 2 ^ 63 - 1 then 2 ^ 63 - 1
  else if t - u < -2 ^ 63 then -2 ^ 63
  else t - u

/-- Go `Duration.Seconds`: `float64(d / Second) + float64(d % Second) / 1e9`, with the
truncated division and remainder of Go. -/
def durationSeconds (d : Int) : Float64 :=
  roundFloat64 (roundFloat64 (d.tdiv 1000000000 : Int) +
    roundFloat64 (roundFloat64 (d.tmod 1000000000 : Int) / 1000000000))

/-- Go conversion `int(f)` of a `float64` within the range of `int`: the fraction is
discarded. -/
def truncToInt (x : Float64) : Int :=
  if 0 ≤ x then ⌊x⌋ else ⌈x⌉

/-! ## Submission to the history service -/

/-- Go `models.FullTranscriptPayload`. -/
structure FullTranscriptPayload where
  CallSid : String
  TenantID : String
  FromNumber : String
  ToNumber : String
  StartTimestamp : Time
  EndTimestamp : Option Time := none
  DurationSeconds : Int := 0
  TranscriptEntries : List TranscriptEntry
  DialogflowMetadata : Option DialogflowQueryResult
  HandoffOccurred : Bool
  HandoffReason : String
  HandoffTimestamp : Option Time
  Embedding : List Float64 := []
  CreatedAt : Time

/-- The response of `http.Post`. -/
structure HttpResponse where
  StatusCode : Nat
  Status : String
  Body : String

/-- What one call of `sendTranscriptToHistoryService` did: the error returned, the payload
built, and the state behind the `state` pointer after the call. -/
structure HistorySubmission where
  err : Option String
  payload : FullTranscriptPayload
  state : ConversationState

/-- Go `sendTranscriptToHistoryService`; `now` is the reading of `time.Now()` and `post`
the outcome of `http.Post` of the serialised payload. The function reads the fields of
`state` and assigns none. -/
def sendTranscriptToHistoryService (now : Time)
    (post : FullTranscriptPayload → Except String HttpResponse) (state : ConversationState)
    (dialogflowResult : Option DialogflowQueryResult) : HistorySubmission :=
  let payload : FullTranscriptPayload :=
    { CallSid := state.CallSid
      TenantID := state.TenantID
      FromNumber := state.FromNumber
      ToNumber := state.ToNumber
      StartTimestamp := state.StartTimestamp
      TranscriptEntries := state.RecentTurns
      DialogflowMetadata := dialogflowResult
      HandoffOccurred := state.HandoffOccurred
      HandoffReason := state.HandoffReason
      HandoffTimestamp := state.HandoffTimestamp
      CreatedAt := now }
  let payload :=
    match state.HandoffOccurred, state.HandoffTimestamp with
    | true, some endTime =>
      { payload with
        EndTimestamp := some endTime
        DurationSeconds := truncToInt (durationSeconds (timeSub endTime state.StartTimestamp)) }
    | _, _ => payload
  match post payload with
  | .error e =>
    { err := some ("error al enviar el payload al servicio de historial: " ++ e)
      payload := payload, state := state }
  | .ok resp =>
    if resp.StatusCode ≠ 200 then
      { err := some ("error del servicio de historial: " ++ resp.Status ++ " - " ++ resp.Body)
        payload := payload, state := state }
    else { err := none, payload := payload, state := state }

/-- A state handed off `2^24` seconds and 999999999 nanoseconds after its start. -/
def longCallState : ConversationState :=
  { midCallState with
    StartTimestamp := 0
    HandoffOccurred := true
    HandoffReason := "motivo"
    HandoffTimestamp := some 16777216999999999 }

/-- A history service that accepts every payload. -/
def acceptingPost : FullTranscriptPayload → Except String HttpResponse :=
  fun _ => .ok { StatusCode := 200, Status := "200 OK", Body := "" }

/-- A state handed off 90.5 seconds after its start. -/
def shortCallState : ConversationState :=
  { midCallState with
    StartTimestamp := 1000000000
    HandoffOccurred := true
    HandoffReason := "motivo"
    HandoffTimestamp := some 91500000000 }

/-- A successful Dialogflow answer whose first message has a text part with no text. -/
def emptyTextAnswer : DetectIntentResponse :=
  { QueryResult := some { ResponseMessages := [{ Text := some [] }] } }

/-- As `workingEnv`, with Dialogflow answering with `emptyTextAnswer`. -/
def emptyTextEnv : Env :=
  { workingEnv with detectIntent := fun _ => .ok emptyTextAnswer }

/-- As `workingEnv`, with `docRef.Get` failing for a reason other than the document being
absent. -/
def failingGetEnv : Env :=
  { workingEnv with docGetErr := some "rpc error: code = Unavailable" }

/-- The state that `getOrCreateConversationState` creates for `speechRequest` when the
clock reads 100. -/
def recreatedState : ConversationState :=
  { CallSid := "CA1"
    TenantID := "default"
    FromNumber := "+56911111111"
    ToNumber := "+56922222222"
    StartTimestamp := 100
    LastUpdateTimestamp := 100
    DialogflowSessionID := "twilio-CA1"
    CurrentTurnIndex := 0
    RecentTurns := []
    HandoffOccurred := false }

/-! ## Facts about the session store -/

theorem getOrCreate_of_loads {env : Env} {store : Store} {voiceRequest : VoiceRequest}
    {s : ConversationState} (h : Loads env store voiceRequest s) :
    getOrCreateConversationState env store voiceRequest = (.ok s, store, []) := by
  obtain ⟨h1, h2, h3, h4⟩ := h
  simp [getOrCreateConversationState, docGet, h1, h2, h3, h4]

theorem getOrCreate_of_absent {env : Env} {store : Store} {voiceRequest : VoiceRequest}
    (hnew : store voiceRequest.CallSid = none) (hclient : env.newClientGetErr = none)
    (hcreate : env.docCreateErr = none) :
    getOrCreateConversationState env store voiceRequest =
      (.ok
        { CallSid := voiceRequest.CallSid
          TenantID := "default"
          FromNumber := voiceRequest.From
          ToNumber := voiceRequest.To
          StartTimestamp := env.nowCreate
          LastUpdateTimestamp := env.nowCreate
          DialogflowSessionID := GenerateSessionID voiceRequest.CallSid
          CurrentTurnIndex := 0
          RecentTurns := []
          HandoffOccurred := false },
       store.set voiceRequest.CallSid
        { CallSid := voiceRequest.CallSid
          TenantID := "default"
          FromNumber := voiceRequest.From
          ToNumber := voiceRequest.To
          StartTimestamp := env.nowCreate
          LastUpdateTimestamp := env.nowCreate
          DialogflowSessionID := GenerateSessionID voiceRequest.CallSid
          CurrentTurnIndex := 0
          RecentTurns := []
          HandoffOccurred := false },
       [{ CallSid := voiceRequest.CallSid
          TenantID := "default"
          FromNumber := voiceRequest.From
          ToNumber := voiceRequest.To
          StartTimestamp := env.nowCreate
          LastUpdateTimestamp := env.nowCreate
          DialogflowSessionID := GenerateSessionID voiceRequest.CallSid
          CurrentTurnIndex := 0
          RecentTurns := []
          HandoffOccurred := false }]) := by
  cases hget : env.docGetErr <;>
    simp [getOrCreateConversationState, docGet, hnew, hclient, hcreate, hget]

theorem handle_of_loads (cfg : Config) {env : Env} {store : Store}
    {voiceRequest : VoiceRequest} {s : ConversationState}
    (h : Loads env store voiceRequest s) :
    HandleVoiceRequest cfg env store voiceRequest =
      if s.CurrentTurnIndex = 0 then
        { response := respondWithTwiML (generateWelcomeTwiML cfg), store := store, saved := [] }
      else
        match userInputOf voiceRequest with
        | none =>
          { response := respondWithTwiML (generateErrorTwiML cfg
              "No se detectó ninguna entrada. Por favor, inténtelo de nuevo.")
            store := store, saved := [] }
        | some userInput => processTurn cfg env store [] s userInput := by
  simp only [HandleVoiceRequest, getOrCreate_of_loads h]

/-! ## The first contact -/

/-- Claim C1. For a call identifier with no stored state, when the Firestore client and the
creating write work, `HandleVoiceRequest` hands exactly one state to the store, stored
under the call identifier, with turn index 0, no recent turns, no handoff and the session
identifier `GenerateSessionID callSid`; it answers with the greeting script (a `Say` and a
`Gather` node, no `Dial`, no `Hangup`) and makes no call of `queryDialogflow`, whatever
the event carries. -/
theorem C1_first_event_creates_state_and_greets (cfg : Config) (env : Env) (store : Store)
    (voiceRequest : VoiceRequest)
    (hnew : store voiceRequest.CallSid = none)
    (hclient : env.newClientGetErr = none) (hcreate : env.docCreateErr = none) :
    ∃ st : ConversationState,
      (HandleVoiceRequest cfg env store voiceRequest).saved = [st] ∧
      (HandleVoiceRequest cfg env store voiceRequest).store voiceRequest.CallSid = some st ∧
      st.CallSid = voiceRequest.CallSid ∧
      st.CurrentTurnIndex = 0 ∧ st.RecentTurns = [] ∧ st.HandoffOccurred = false ∧
      st.DialogflowSessionID = GenerateSessionID voiceRequest.CallSid ∧
      (HandleVoiceRequest cfg env store voiceRequest).response =
        .twiml (generateWelcomeTwiML cfg) ∧
      (generateWelcomeTwiML cfg).Say.isSome = true ∧
      (generateWelcomeTwiML cfg).Gather.isSome = true ∧
      (generateWelcomeTwiML cfg).Dial = none ∧
      (generateWelcomeTwiML cfg).Hangup = none ∧
      (HandleVoiceRequest cfg env store voiceRequest).nluCalls = [] := by
  refine ⟨{ CallSid := voiceRequest.CallSid
            TenantID := "default"
            FromNumber := voiceRequest.From
            ToNumber := voiceRequest.To
            StartTimestamp := env.nowCreate
            LastUpdateTimestamp := env.nowCreate
            DialogflowSessionID := GenerateSessionID voiceRequest.CallSid
            CurrentTurnIndex := 0
            RecentTurns := []
            HandoffOccurred := false }, ?_⟩
  simp only [HandleVoiceRequest, getOrCreate_of_absent hnew hclient hcreate]
  simp [Store.set, respondWithTwiML, generateWelcomeTwiML]

/-- Witness of C1: the first event of call `CA1` on the empty store. -/
theorem C1_first_event_creates_state_and_greets_witness :
    emptyStore speechRequest.CallSid = none ∧
    workingEnv.newClientGetErr = none ∧ workingEnv.docCreateErr = none ∧
    ∃ st : ConversationState,
      (HandleVoiceRequest defaultConfig workingEnv emptyStore speechRequest).saved = [st] ∧
      (HandleVoiceRequest defaultConfig workingEnv emptyStore speechRequest).store
        speechRequest.CallSid = some st ∧
      st.CallSid = speechRequest.CallSid ∧
      st.CurrentTurnIndex = 0 ∧ st.RecentTurns = [] ∧ st.HandoffOccurred = false ∧
      st.DialogflowSessionID = GenerateSessionID speechRequest.CallSid ∧
      (HandleVoiceRequest defaultConfig workingEnv emptyStore speechRequest).response =
        .twiml (generateWelcomeTwiML defaultConfig) ∧
      (generateWelcomeTwiML defaultConfig).Say.isSome = true ∧
      (generateWelcomeTwiML defaultConfig).Gather.isSome = true ∧
      (generateWelcomeTwiML defaultConfig).Dial = none ∧
      (generateWelcomeTwiML defaultConfig).Hangup = none ∧
      (HandleVoiceRequest defaultConfig workingEnv emptyStore speechRequest).nluCalls = [] :=
  ⟨rfl, rfl, rfl,
    C1_first_event_creates_state_and_greets defaultConfig workingEnv emptyStore speechRequest
      rfl rfl rfl⟩

/-- A state with turn index 0 that is loaded is greeted: no call of `queryDialogflow`,
nothing handed to the store, the store unchanged. -/
theorem loaded_index_zero_is_greeted (cfg : Config) (env : Env) (store : Store)
    (voiceRequest : VoiceRequest) (s : ConversationState)
    (hload : Loads env store voiceRequest s) (hzero : s.CurrentTurnIndex = 0) :
    (HandleVoiceRequest cfg env store voiceRequest).response =
        .twiml (generateWelcomeTwiML cfg) ∧
      (HandleVoiceRequest cfg env store voiceRequest).nluCalls = [] ∧
      (HandleVoiceRequest cfg env store voiceRequest).saved = [] ∧
      (HandleVoiceRequest cfg env store voiceRequest).store = store := by
  simp [handle_of_loads cfg hload, hzero, respondWithTwiML]

/-- Claim C2 (the code at the failing input). The first event of call `CA1` stores a state
with turn index 0. A later event of the same call carrying the speech
`"quiero hablar con un agente"`, with every collaborator working, is answered with the
greeting script again: `queryDialogflow` is not called, nothing is handed to the store,
and the stored state still has turn index 0 and no recent turns, where the claim has turn
index 1 and two recent turns. -/
theorem C2_later_event_is_greeted_again :
    (firstEventOutcome.store "CA1").map (fun st => st.CurrentTurnIndex) = some 0 ∧
    secondEventOutcome.response = .twiml (generateWelcomeTwiML defaultConfig) ∧
    secondEventOutcome.nluCalls = [] ∧
    secondEventOutcome.saved = [] ∧
    (secondEventOutcome.store "CA1").map (fun st => st.CurrentTurnIndex) = some 0 ∧
    (secondEventOutcome.store "CA1").map (fun st => st.RecentTurns) = some [] := by
  refine ⟨by rfl, by rfl, by rfl, by rfl, by rfl, by rfl⟩

/-! ## Facts about a turn -/

theorem incrInt_of_lt {x : Int} (hlo : -2 ^ 63 ≤ x) (hhi : x < 2 ^ 63 - 1) :
    incrInt x = x + 1 := by
  unfold incrInt
  omega

theorem prepareTurn_some {env : Env} {s s1 : ConversationState} {u ctx : String}
    (h : prepareTurn env s u = some (s1, ctx)) :
    env.embed 0 u ≠ .panic ∧
    ∃ e : TranscriptEntry, e.Speaker = "user" ∧ e.Text = u ∧ e.Confidence = 1 ∧
      s1 = { s with
             RecentTurns := s.RecentTurns ++ [e]
             CurrentTurnIndex := incrInt s.CurrentTurnIndex } := by
  unfold prepareTurn at h
  cases hE : env.embed 0 u with
  | panic => simp [hE] at h
  | err m =>
    simp only [hE, Option.some.injEq, Prod.mk.injEq] at h
    exact ⟨by simp, _, rfl, rfl, rfl, h.1.symm⟩
  | ok v =>
    simp only [hE, Option.some.injEq, Prod.mk.injEq] at h
    exact ⟨by simp, _, rfl, rfl, rfl, h.1.symm⟩

theorem prepareTurn_none {env : Env} {s : ConversationState} {u : String}
    (h : prepareTurn env s u = none) : env.embed 0 u = .panic := by
  unfold prepareTurn at h
  cases hE : env.embed 0 u with
  | panic => rfl
  | err m => simp [hE] at h
  | ok v => simp [hE] at h

theorem finishTurn_of_panic {cfg : Config} {env : Env} {store : Store}
    {saved : List ConversationState} {calls : List NLUCall} {s1 : ConversationState}
    {r : DialogflowQueryResult} (h : env.embed 1 r.ResponseText = .panic) :
    finishTurn cfg env store saved calls s1 r =
      { response := .panicked, store := store, saved := saved, nluCalls := calls } := by
  simp [finishTurn, h]

theorem finishTurn_of_embedded {cfg : Config} {env : Env} {store : Store}
    {saved : List ConversationState} {calls : List NLUCall} {s1 : ConversationState}
    {r : DialogflowQueryResult} (h : env.embed 1 r.ResponseText ≠ .panic) :
    finishTurn cfg env store saved calls s1 r =
      { response := .twiml (scriptAfterTurn cfg r)
        store := (updateConversationState env store (stateAfterTurn cfg env s1 r)).2.1
        saved := saved ++ (updateConversationState env store (stateAfterTurn cfg env s1 r)).2.2
        nluCalls := calls
        historyCalls := [(stateAfterTurn cfg env s1 r, r)] } := by
  unfold finishTurn stateAfterTurn scriptAfterTurn agentEntryOf respondWithTwiML
  cases hE : env.embed 1 r.ResponseText with
  | panic => exact absurd hE h
  | err m => cases hp : handoffPayloadOf cfg r.CustomPayload <;> simp
  | ok v => cases hp : handoffPayloadOf cfg r.CustomPayload <;> simp

theorem update_saved_mem {env : Env} {store : Store} {st u : ConversationState}
    (h : u ∈ (updateConversationState env store st).2.2) : u = st := by
  unfold updateConversationState at h
  cases h1 : env.newClientUpdateErr <;> cases h2 : env.docUpdateErr <;>
    simp [h1, h2] at h <;> exact h

theorem finishTurn_saved_mem {cfg : Config} {env : Env} {store : Store}
    {calls : List NLUCall} {s1 u : ConversationState} {r : DialogflowQueryResult}
    (h : u ∈ (finishTurn cfg env store [] calls s1 r).saved) :
    u = stateAfterTurn cfg env s1 r := by
  by_cases hE : env.embed 1 r.ResponseText = .panic
  · simp [finishTurn_of_panic hE] at h
  · rw [finishTurn_of_embedded hE] at h
    simp only [List.nil_append] at h
    exact update_saved_mem h

theorem processTurn_of_prepared (cfg : Config) {env : Env} (store : Store)
    (saved : List ConversationState) {s s1 : ConversationState} {u ctx : String}
    (h : prepareTurn env s u = some (s1, ctx)) :
    processTurn cfg env store saved s u =
      match queryDialogflow cfg env s1.DialogflowSessionID u ctx with
      | .err e =>
        { response := respondWithError cfg e, store := store, saved := saved,
          nluCalls := [{ sessionID := s1.DialogflowSessionID, query := u, contextText := ctx }] }
      | .panic =>
        { response := .panicked, store := store, saved := saved,
          nluCalls := [{ sessionID := s1.DialogflowSessionID, query := u, contextText := ctx }] }
      | .ok r =>
        finishTurn cfg env store saved
          [{ sessionID := s1.DialogflowSessionID, query := u, contextText := ctx }] s1 r := by
  simp only [processTurn, h]

theorem processTurn_of_panic (cfg : Config) {env : Env} (store : Store)
    (saved : List ConversationState) {s : ConversationState} {u : String}
    (h : prepareTurn env s u = none) :
    processTurn cfg env store saved s u =
      { response := .panicked, store := store, saved := saved } := by
  simp only [processTurn, h]

theorem finishTurn_nluCalls (cfg : Config) (env : Env) (store : Store)
    (saved : List ConversationState) (calls : List NLUCall) (s1 : ConversationState)
    (r : DialogflowQueryResult) :
    (finishTurn cfg env store saved calls s1 r).nluCalls = calls := by
  by_cases hE : env.embed 1 r.ResponseText = .panic
  · rw [finishTurn_of_panic hE]
  · rw [finishTurn_of_embedded hE]

/-- Every call of `queryDialogflow` that the handler makes on a loaded state is the call
of a turn: the state has a non-zero index, the event carries an input `u`, `prepareTurn`
produced `(s1, ctx)`, and the handler continues according to the outcome of that call. -/
theorem handle_nlu_call {cfg : Config} {env : Env} {store : Store}
    {voiceRequest : VoiceRequest} {s : ConversationState} {c : NLUCall}
    (hload : Loads env store voiceRequest s)
    (hc : c ∈ (HandleVoiceRequest cfg env store voiceRequest).nluCalls) :
    ∃ u s1 ctx, s.CurrentTurnIndex ≠ 0 ∧ userInputOf voiceRequest = some u ∧
      prepareTurn env s u = some (s1, ctx) ∧
      c = { sessionID := s1.DialogflowSessionID, query := u, contextText := ctx } ∧
      HandleVoiceRequest cfg env store voiceRequest =
        match queryDialogflow cfg env s1.DialogflowSessionID u ctx with
        | .err e =>
          { response := respondWithError cfg e, store := store, saved := [],
            nluCalls :=
              [{ sessionID := s1.DialogflowSessionID, query := u, contextText := ctx }] }
        | .panic =>
          { response := .panicked, store := store, saved := [],
            nluCalls :=
              [{ sessionID := s1.DialogflowSessionID, query := u, contextText := ctx }] }
        | .ok r =>
          finishTurn cfg env store []
            [{ sessionID := s1.DialogflowSessionID, query := u, contextText := ctx }] s1 r := by
  rw [handle_of_loads cfg hload] at hc ⊢
  by_cases h0 : s.CurrentTurnIndex = 0
  · simp [h0] at hc
  · simp only [h0, if_false] at hc ⊢
    cases hu : userInputOf voiceRequest with
    | none => simp [hu] at hc
    | some u =>
      simp only [hu] at hc ⊢
      cases hp : prepareTurn env s u with
      | none => simp [processTurn_of_panic cfg store [] hp] at hc
      | some p =>
        obtain ⟨s1, ctx⟩ := p
        rw [processTurn_of_prepared cfg store [] hp] at hc ⊢
        refine ⟨u, s1, ctx, h0, rfl, hp, ?_, rfl⟩
        cases hq : queryDialogflow cfg env s1.DialogflowSessionID u ctx with
        | err e => simpa [hq] using hc
        | panic => simpa [hq] using hc
        | ok r => simpa [hq, finishTurn_nluCalls] using hc

theorem agentEntryOf_fields (env : Env) (r : DialogflowQueryResult) :
    (agentEntryOf env r).Speaker = "ai" ∧ (agentEntryOf env r).Text = r.ResponseText ∧
      (agentEntryOf env r).Confidence = 1 := by
  unfold agentEntryOf
  cases env.embed 1 r.ResponseText <;> exact ⟨rfl, rfl, rfl⟩

theorem stateAfterTurn_frame (cfg : Config) (env : Env) (s1 : ConversationState)
    (r : DialogflowQueryResult) :
    (stateAfterTurn cfg env s1 r).CurrentTurnIndex = s1.CurrentTurnIndex ∧
      (stateAfterTurn cfg env s1 r).RecentTurns = s1.RecentTurns ++ [agentEntryOf env r] ∧
      (stateAfterTurn cfg env s1 r).CallSid = s1.CallSid := by
  unfold stateAfterTurn
  cases handoffPayloadOf cfg r.CustomPayload <;> exact ⟨rfl, rfl, rfl⟩

theorem update_of_client {env : Env} (store : Store) (st : ConversationState)
    (hclient : env.newClientUpdateErr = none) :
    (updateConversationState env store st).2.2 = [st] ∧
      (env.docUpdateErr = none →
        (updateConversationState env store st).2.1 st.CallSid = some st) := by
  unfold updateConversationState
  cases h2 : env.docUpdateErr <;> simp [hclient, Store.set]

/-! ## A completed turn -/

/-- Claim C3 (amended). For a loaded state with `0 < turnIndex < 2^63 - 1`, an event with
utterance `userInput` and a call of `queryDialogflow` made by the handler that returns
`r`: every state the handler hands to the store has turn index `old + 1` and recent turns
`old ++ [user entry, agent entry]`, the user entry with the utterance as text, the agent
entry with `r.ResponseText` as text, both with confidence 1; and when the second embedding
call does not panic and the Firestore client is created, exactly one state is handed to
the store, which holds it under the state's call identifier when the write succeeds. -/
theorem C3_turn_appends_user_and_agent_entries (cfg : Config) (env : Env) (store : Store)
    (voiceRequest : VoiceRequest) (s : ConversationState) (userInput : String)
    (r : DialogflowQueryResult)
    (hload : Loads env store voiceRequest s)
    (hpos : 0 < s.CurrentTurnIndex) (hmax : s.CurrentTurnIndex < 2 ^ 63 - 1)
    (hin : userInputOf voiceRequest = some userInput)
    (hnlu : ∃ c ∈ (HandleVoiceRequest cfg env store voiceRequest).nluCalls,
      queryDialogflow cfg env c.sessionID c.query c.contextText = .ok r) :
    (∀ u ∈ (HandleVoiceRequest cfg env store voiceRequest).saved,
      u.CurrentTurnIndex = s.CurrentTurnIndex + 1 ∧
      ∃ eu ea : TranscriptEntry, u.RecentTurns = s.RecentTurns ++ [eu, ea] ∧
        eu.Speaker = "user" ∧ eu.Text = userInput ∧ eu.Confidence = 1 ∧
        ea.Speaker = "ai" ∧ ea.Text = r.ResponseText ∧ ea.Confidence = 1) ∧
    (env.embed 1 r.ResponseText ≠ .panic → env.newClientUpdateErr = none →
      ∃ u, (HandleVoiceRequest cfg env store voiceRequest).saved = [u] ∧
        (env.docUpdateErr = none →
          (HandleVoiceRequest cfg env store voiceRequest).store u.CallSid = some u)) := by
  obtain ⟨c, hc, hq⟩ := hnlu
  obtain ⟨u, s1, ctx, _, hu, hp, rfl, hH⟩ := handle_nlu_call hload hc
  rw [hin] at hu
  obtain rfl : userInput = u := Option.some.inj hu
  simp only at hq
  simp only [hq] at hH
  obtain ⟨_, e, he1, he2, he3, rfl⟩ := prepareTurn_some hp
  obtain ⟨ha1, ha2, ha3⟩ := agentEntryOf_fields env r
  constructor
  · intro st hst
    rw [hH] at hst
    obtain rfl := finishTurn_saved_mem hst
    obtain ⟨f1, f2, _⟩ := stateAfterTurn_frame cfg env
      { s with
        RecentTurns := s.RecentTurns ++ [e]
        CurrentTurnIndex := incrInt s.CurrentTurnIndex } r
    refine ⟨?_, e, agentEntryOf env r, ?_, he1, he2, he3, ha1, ha2, ha3⟩
    · rw [f1]
      exact incrInt_of_lt (by omega) hmax
    · rw [f2]
      simp
  · intro hE hclient
    rw [hH, finishTurn_of_embedded hE]
    obtain ⟨g1, g2⟩ := update_of_client store
      (stateAfterTurn cfg env
        { s with
          RecentTurns := s.RecentTurns ++ [e]
          CurrentTurnIndex := incrInt s.CurrentTurnIndex } r) hclient
    exact ⟨_, by simp [g1], g2⟩

/-- Witness of C3 (amended): the state with one completed turn, a speech event and a
text answer of Dialogflow. -/
theorem C3_turn_appends_user_and_agent_entries_witness :
    Loads workingEnv midCallStore speechRequest midCallState ∧
    0 < midCallState.CurrentTurnIndex ∧ midCallState.CurrentTurnIndex < 2 ^ 63 - 1 ∧
    userInputOf speechRequest = some "quiero hablar con un agente" ∧
    (∃ c ∈ (HandleVoiceRequest defaultConfig workingEnv midCallStore speechRequest).nluCalls,
      queryDialogflow defaultConfig workingEnv c.sessionID c.query c.contextText =
        .ok textResult) ∧
    (∀ u ∈ (HandleVoiceRequest defaultConfig workingEnv midCallStore speechRequest).saved,
      u.CurrentTurnIndex = midCallState.CurrentTurnIndex + 1 ∧
      ∃ eu ea : TranscriptEntry, u.RecentTurns = midCallState.RecentTurns ++ [eu, ea] ∧
        eu.Speaker = "user" ∧ eu.Text = "quiero hablar con un agente" ∧ eu.Confidence = 1 ∧
        ea.Speaker = "ai" ∧ ea.Text = textResult.ResponseText ∧ ea.Confidence = 1) ∧
    (workingEnv.embed 1 textResult.ResponseText ≠ .panic →
      workingEnv.newClientUpdateErr = none →
      ∃ u, (HandleVoiceRequest defaultConfig workingEnv midCallStore speechRequest).saved
          = [u] ∧
        (workingEnv.docUpdateErr = none →
          (HandleVoiceRequest defaultConfig workingEnv midCallStore speechRequest).store
            u.CallSid = some u)) :=
  have hnlu : ∃ c ∈
      (HandleVoiceRequest defaultConfig workingEnv midCallStore speechRequest).nluCalls,
      queryDialogflow defaultConfig workingEnv c.sessionID c.query c.contextText =
        .ok textResult :=
    ⟨speechCall, (List.Mem.head [] : speechCall ∈ [speechCall]), rfl⟩
  ⟨⟨rfl, rfl, rfl, rfl⟩, by decide, by decide, rfl, hnlu,
    C3_turn_appends_user_and_agent_entries defaultConfig workingEnv midCallStore speechRequest
      midCallState "quiero hablar con un agente" textResult ⟨rfl, rfl, rfl, rfl⟩
      (by decide) (by decide) rfl hnlu⟩

/-- Counterexample to C3 as stated: the loaded state has turn index `2^63 - 1 > 0`, the
event carries speech and `queryDialogflow` succeeds, yet the one state handed to the store
has turn index `-2^63`, not `old + 1`: `CurrentTurnIndex++` wraps. -/
theorem C3_counterexample_index_wraps :
    Loads workingEnv maxIndexStore speechRequest maxIndexState ∧
    0 < maxIndexState.CurrentTurnIndex ∧
    userInputOf speechRequest = some "quiero hablar con un agente" ∧
    (∃ c ∈ (HandleVoiceRequest defaultConfig workingEnv maxIndexStore speechRequest).nluCalls,
      queryDialogflow defaultConfig workingEnv c.sessionID c.query c.contextText =
        .ok textResult) ∧
    (HandleVoiceRequest defaultConfig workingEnv maxIndexStore speechRequest).saved.map
      (fun u => u.CurrentTurnIndex) = [-9223372036854775808] ∧
    ¬ ∀ u ∈ (HandleVoiceRequest defaultConfig workingEnv maxIndexStore speechRequest).saved,
      u.CurrentTurnIndex = maxIndexState.CurrentTurnIndex + 1 := by
  have hsaved :
      (HandleVoiceRequest defaultConfig workingEnv maxIndexStore speechRequest).saved.map
        (fun u => u.CurrentTurnIndex) = [-9223372036854775808] := by rfl
  refine ⟨⟨rfl, rfl, rfl, rfl⟩, by decide, rfl,
    ⟨speechCall, (List.Mem.head [] : speechCall ∈ [speechCall]), rfl⟩, hsaved, ?_⟩
  intro hall
  have hmap : (HandleVoiceRequest defaultConfig workingEnv maxIndexStore speechRequest).saved.map
      (fun u => u.CurrentTurnIndex) =
      (HandleVoiceRequest defaultConfig workingEnv maxIndexStore speechRequest).saved.map
        (fun _ => maxIndexState.CurrentTurnIndex + 1) :=
    List.map_congr_left hall
  rw [hsaved] at hmap
  cases hs : (HandleVoiceRequest defaultConfig workingEnv maxIndexStore speechRequest).saved with
  | nil => rw [hs] at hmap; simp at hmap
  | cons a t =>
    rw [hs] at hmap
    simp only [List.map_cons, List.cons.injEq] at hmap
    exact absurd hmap.1 (by decide)

/-! ## A turn whose NLU query fails -/

/-- Claim C4. For a loaded state, when a call of `queryDialogflow` made by the handler
returns an error, the handler hands nothing to the store and starts no history
submission, the store is unchanged (it still holds the loaded state, with its turn index
and recent turns), and the response is the error script: the apology in a `Say` node and a
`Gather` node, no `Dial`, no `Hangup`. -/
theorem C4_failed_nlu_query_leaves_state_unchanged (cfg : Config) (env : Env) (store : Store)
    (voiceRequest : VoiceRequest) (s : ConversationState)
    (hload : Loads env store voiceRequest s)
    (hfail : ∃ c ∈ (HandleVoiceRequest cfg env store voiceRequest).nluCalls,
      ∃ e, queryDialogflow cfg env c.sessionID c.query c.contextText = .err e) :
    (HandleVoiceRequest cfg env store voiceRequest).saved = [] ∧
    (HandleVoiceRequest cfg env store voiceRequest).historyCalls = [] ∧
    (HandleVoiceRequest cfg env store voiceRequest).store = store ∧
    (HandleVoiceRequest cfg env store voiceRequest).store voiceRequest.CallSid = some s ∧
    (HandleVoiceRequest cfg env store voiceRequest).response =
      .twiml (generateErrorTwiML cfg
        "Lo siento, ha ocurrido un error. Por favor, inténtelo de nuevo más tarde.") ∧
    ((generateErrorTwiML cfg
        "Lo siento, ha ocurrido un error. Por favor, inténtelo de nuevo más tarde.").Say.map
      (fun say => say.Value)) =
      some "Lo siento, ha ocurrido un error. Por favor, inténtelo de nuevo más tarde." ∧
    (generateErrorTwiML cfg
        "Lo siento, ha ocurrido un error. Por favor, inténtelo de nuevo más tarde.").Gather.isSome
      = true ∧
    (generateErrorTwiML cfg
        "Lo siento, ha ocurrido un error. Por favor, inténtelo de nuevo más tarde.").Dial
      = none ∧
    (generateErrorTwiML cfg
        "Lo siento, ha ocurrido un error. Por favor, inténtelo de nuevo más tarde.").Hangup
      = none := by
  obtain ⟨c, hc, e, hq⟩ := hfail
  obtain ⟨u, s1, ctx, _, _, _, rfl, hH⟩ := handle_nlu_call hload hc
  simp only at hq
  simp only [hq] at hH
  rw [hH]
  exact ⟨rfl, rfl, rfl, hload.2.2.2, rfl, rfl, rfl, rfl, rfl⟩

/-- Witness of C4: the state with one completed turn, a speech event, Dialogflow
failing. -/
theorem C4_failed_nlu_query_leaves_state_unchanged_witness :
    Loads failingNluEnv midCallStore speechRequest midCallState ∧
    (∃ c ∈ (HandleVoiceRequest defaultConfig failingNluEnv midCallStore speechRequest).nluCalls,
      ∃ e, queryDialogflow defaultConfig failingNluEnv c.sessionID c.query c.contextText =
        .err e) ∧
    (HandleVoiceRequest defaultConfig failingNluEnv midCallStore speechRequest).saved = [] ∧
    (HandleVoiceRequest defaultConfig failingNluEnv midCallStore speechRequest).historyCalls
      = [] ∧
    (HandleVoiceRequest defaultConfig failingNluEnv midCallStore speechRequest).store
      = midCallStore ∧
    (HandleVoiceRequest defaultConfig failingNluEnv midCallStore speechRequest).store
      speechRequest.CallSid = some midCallState ∧
    (HandleVoiceRequest defaultConfig failingNluEnv midCallStore speechRequest).response =
      .twiml (generateErrorTwiML defaultConfig
        "Lo siento, ha ocurrido un error. Por favor, inténtelo de nuevo más tarde.") ∧
    ((generateErrorTwiML defaultConfig
        "Lo siento, ha ocurrido un error. Por favor, inténtelo de nuevo más tarde.").Say.map
      (fun say => say.Value)) =
      some "Lo siento, ha ocurrido un error. Por favor, inténtelo de nuevo más tarde." ∧
    (generateErrorTwiML defaultConfig
        "Lo siento, ha ocurrido un error. Por favor, inténtelo de nuevo más tarde.").Gather.isSome
      = true ∧
    (generateErrorTwiML defaultConfig
        "Lo siento, ha ocurrido un error. Por favor, inténtelo de nuevo más tarde.").Dial
      = none ∧
    (generateErrorTwiML defaultConfig
        "Lo siento, ha ocurrido un error. Por favor, inténtelo de nuevo más tarde.").Hangup
      = none :=
  have hfail : ∃ c ∈
      (HandleVoiceRequest defaultConfig failingNluEnv midCallStore speechRequest).nluCalls,
      ∃ e, queryDialogflow defaultConfig failingNluEnv c.sessionID c.query c.contextText =
        .err e :=
    ⟨speechCall, (List.Mem.head [] : speechCall ∈ [speechCall]), _, rfl⟩
  ⟨⟨rfl, rfl, rfl, rfl⟩, hfail,
    C4_failed_nlu_query_leaves_state_unchanged defaultConfig failingNluEnv midCallStore
      speechRequest midCallState ⟨rfl, rfl, rfl, rfl⟩ hfail⟩

/-! ## Handoff -/

theorem handoffPayloadOf_of_action (cfg : Config) {m : GoMap}
    (h : m.get "action" = some (Value.str "LiveAgentHandoff")) :
    ∃ hp, handoffPayloadOf cfg m = some hp ∧
      hp.TransferNumber =
        (match assertString (m.get "transferNumber") with
         | some t => if t ≠ "" then t else cfg.transferPhoneNumber
         | none => cfg.transferPhoneNumber) ∧
      hp.Reason =
        (match assertString (m.get "reason") with
         | some q => if q ≠ "" then q
            else "El cliente ha solicitado hablar con un agente humano"
         | none => "El cliente ha solicitado hablar con un agente humano") := by
  cases m with
  | none => simp [GoMap.get] at h
  | some kvs =>
    unfold handoffPayloadOf
    have ha : assertString (some (Value.str "LiveAgentHandoff")) = some "LiveAgentHandoff" :=
      rfl
    simp only [h, ha, if_true]
    generalize assertString (GoMap.get (some kvs) "transferNumber") = tn
    generalize assertString (GoMap.get (some kvs) "reason") = rs
    generalize assertBool (GoMap.get (some kvs) "preserveContext") = pc
    rcases tn with _ | t <;> rcases rs with _ | q <;> rcases pc with _ | b <;>
      simp only [Option.some.injEq, exists_eq_left'] <;> (try split_ifs) <;> simp

theorem handoffPayloadOf_of_no_action (cfg : Config) {m : GoMap}
    (h : assertString (m.get "action") ≠ some "LiveAgentHandoff") :
    handoffPayloadOf cfg m = none := by
  cases m with
  | none => rfl
  | some kvs =>
    unfold handoffPayloadOf
    cases ha : assertString (GoMap.get (some kvs) "action") with
    | none => rfl
    | some a =>
      have hne : a ≠ "LiveAgentHandoff" := fun hEq => h (by rw [ha, hEq])
      simp [hne]

theorem stateAfterTurn_handoff (cfg : Config) (env : Env) (s1 : ConversationState)
    (r : DialogflowQueryResult) :
    (∀ hp, handoffPayloadOf cfg r.CustomPayload = some hp →
      (stateAfterTurn cfg env s1 r).HandoffOccurred = true ∧
      (stateAfterTurn cfg env s1 r).HandoffReason = hp.Reason ∧
      (stateAfterTurn cfg env s1 r).HandoffTimestamp = some env.nowHandoff) ∧
    (handoffPayloadOf cfg r.CustomPayload = none →
      (stateAfterTurn cfg env s1 r).HandoffOccurred = s1.HandoffOccurred ∧
      (stateAfterTurn cfg env s1 r).HandoffReason = s1.HandoffReason ∧
      (stateAfterTurn cfg env s1 r).HandoffTimestamp = s1.HandoffTimestamp) := by
  unfold stateAfterTurn
  cases h : handoffPayloadOf cfg r.CustomPayload with
  | none => exact ⟨fun hp hhp => (by cases hhp), fun _ => ⟨rfl, rfl, rfl⟩⟩
  | some hp0 =>
    refine ⟨fun hp hhp => ?_, fun hn => (by cases hn)⟩
    obtain rfl := Option.some.inj hhp
    exact ⟨rfl, rfl, rfl⟩

/-- Every state that the handler hands to the store on a loaded state is the state at
the end of a turn whose call of `queryDialogflow` succeeded. -/
theorem handle_saved_mem {cfg : Config} {env : Env} {store : Store}
    {voiceRequest : VoiceRequest} {s u : ConversationState}
    (hload : Loads env store voiceRequest s)
    (hu : u ∈ (HandleVoiceRequest cfg env store voiceRequest).saved) :
    ∃ x s1 ctx r, userInputOf voiceRequest = some x ∧ prepareTurn env s x = some (s1, ctx) ∧
      queryDialogflow cfg env s1.DialogflowSessionID x ctx = .ok r ∧
      ({ sessionID := s1.DialogflowSessionID, query := x, contextText := ctx } : NLUCall) ∈
        (HandleVoiceRequest cfg env store voiceRequest).nluCalls ∧
      u = stateAfterTurn cfg env s1 r := by
  rw [handle_of_loads cfg hload] at hu ⊢
  by_cases h0 : s.CurrentTurnIndex = 0
  · simp [h0] at hu
  · simp only [h0, if_false] at hu ⊢
    cases hx : userInputOf voiceRequest with
    | none => simp [hx] at hu
    | some x =>
      simp only [hx] at hu ⊢
      cases hp : prepareTurn env s x with
      | none => simp [processTurn_of_panic cfg store [] hp] at hu
      | some p =>
        obtain ⟨s1, ctx⟩ := p
        rw [processTurn_of_prepared cfg store [] hp] at hu ⊢
        cases hq : queryDialogflow cfg env s1.DialogflowSessionID x ctx with
        | err e => simp [hq] at hu
        | panic => simp [hq] at hu
        | ok r =>
          simp only [hq] at hu ⊢
          exact ⟨x, s1, ctx, r, rfl, hp, hq, by simp [finishTurn_nluCalls],
            finishTurn_saved_mem hu⟩

/-- Claim C5. For a completed turn on a loaded state whose call of `queryDialogflow`
returned `r`: when `r.CustomPayload` has the string `"LiveAgentHandoff"` under `"action"`,
a handoff payload is built whose transfer number is the payload's `"transferNumber"` when
that is a non-empty string and the configured `transferPhoneNumber` otherwise, the
response is the handoff script, whose `Dial` node has that number, and every state handed
to the store has `HandoffOccurred = true`, the payload's reason and `HandoffTimestamp`
set to the clock reading; when the custom payload is absent or has anything else under
`"action"`, no handoff payload is built, the response is the normal script, which has no
`Dial` node, and the handoff fields of every state handed to the store are those of the
loaded state. When the Firestore client is created, exactly one state is handed over. -/
theorem C5_handoff_signal_sets_state_and_transfers (cfg : Config) (env : Env) (store : Store)
    (voiceRequest : VoiceRequest) (s : ConversationState) (r : DialogflowQueryResult)
    (hload : Loads env store voiceRequest s)
    (hnlu : ∃ c ∈ (HandleVoiceRequest cfg env store voiceRequest).nluCalls,
      queryDialogflow cfg env c.sessionID c.query c.contextText = .ok r)
    (hdone : env.embed 1 r.ResponseText ≠ .panic) :
    (r.CustomPayload.get "action" = some (Value.str "LiveAgentHandoff") →
      ∃ hp, handoffPayloadOf cfg r.CustomPayload = some hp ∧
        hp.TransferNumber =
          (match assertString (r.CustomPayload.get "transferNumber") with
           | some t => if t ≠ "" then t else cfg.transferPhoneNumber
           | none => cfg.transferPhoneNumber) ∧
        (HandleVoiceRequest cfg env store voiceRequest).response =
          .twiml (generateHandoffTwiML cfg hp r.ResponseText) ∧
        (generateHandoffTwiML cfg hp r.ResponseText).Dial.map (fun d => d.Number) =
          some hp.TransferNumber ∧
        ∀ u ∈ (HandleVoiceRequest cfg env store voiceRequest).saved,
          u.HandoffOccurred = true ∧ u.HandoffReason = hp.Reason ∧
          u.HandoffTimestamp = some env.nowHandoff) ∧
    (assertString (r.CustomPayload.get "action") ≠ some "LiveAgentHandoff" →
      handoffPayloadOf cfg r.CustomPayload = none ∧
      (HandleVoiceRequest cfg env store voiceRequest).response =
        .twiml (generateResponseTwiML cfg r.ResponseText) ∧
      (generateResponseTwiML cfg r.ResponseText).Dial = none ∧
      ∀ u ∈ (HandleVoiceRequest cfg env store voiceRequest).saved,
        u.HandoffOccurred = s.HandoffOccurred ∧ u.HandoffReason = s.HandoffReason ∧
        u.HandoffTimestamp = s.HandoffTimestamp) ∧
    (env.newClientUpdateErr = none →
      ∃ u, (HandleVoiceRequest cfg env store voiceRequest).saved = [u]) := by
  obtain ⟨c, hc, hq⟩ := hnlu
  obtain ⟨x, s1, ctx, _, _, hp, rfl, hH⟩ := handle_nlu_call hload hc
  simp only at hq
  simp only [hq] at hH
  obtain ⟨_, e, _, _, _, rfl⟩ := prepareTurn_some hp
  rw [hH, finishTurn_of_embedded hdone]
  simp only [List.nil_append]
  refine ⟨fun hact => ?_, fun hno => ?_, fun hclient => ?_⟩
  · obtain ⟨pl, hpl, htn, _⟩ := handoffPayloadOf_of_action cfg hact
    refine ⟨pl, hpl, htn, ?_, rfl, ?_⟩
    · simp [scriptAfterTurn, hpl]
    · intro u hu
      obtain rfl := update_saved_mem hu
      exact (stateAfterTurn_handoff cfg env _ r).1 pl hpl
  · have hpl := handoffPayloadOf_of_no_action cfg hno
    refine ⟨hpl, ?_, rfl, ?_⟩
    · simp [scriptAfterTurn, hpl]
    · intro u hu
      obtain rfl := update_saved_mem hu
      exact (stateAfterTurn_handoff cfg env _ r).2 hpl
  · exact ⟨_, (update_of_client store _ hclient).1⟩

/-- Witness of C5: the state with one completed turn, a speech event, Dialogflow
answering with the handoff payload. -/
theorem C5_handoff_signal_sets_state_and_transfers_witness :
    Loads handoffEnv midCallStore speechRequest midCallState ∧
    (∃ c ∈ (HandleVoiceRequest defaultConfig handoffEnv midCallStore speechRequest).nluCalls,
      queryDialogflow defaultConfig handoffEnv c.sessionID c.query c.contextText =
        .ok handoffResult) ∧
    handoffEnv.embed 1 handoffResult.ResponseText ≠ .panic ∧
    (handoffResult.CustomPayload.get "action" = some (Value.str "LiveAgentHandoff") →
      ∃ hp, handoffPayloadOf defaultConfig handoffResult.CustomPayload = some hp ∧
        hp.TransferNumber =
          (match assertString (handoffResult.CustomPayload.get "transferNumber") with
           | some t => if t ≠ "" then t else defaultConfig.transferPhoneNumber
           | none => defaultConfig.transferPhoneNumber) ∧
        (HandleVoiceRequest defaultConfig handoffEnv midCallStore speechRequest).response =
          .twiml (generateHandoffTwiML defaultConfig hp handoffResult.ResponseText) ∧
        (generateHandoffTwiML defaultConfig hp handoffResult.ResponseText).Dial.map
          (fun d => d.Number) = some hp.TransferNumber ∧
        ∀ u ∈ (HandleVoiceRequest defaultConfig handoffEnv midCallStore speechRequest).saved,
          u.HandoffOccurred = true ∧ u.HandoffReason = hp.Reason ∧
          u.HandoffTimestamp = some handoffEnv.nowHandoff) ∧
    (assertString (handoffResult.CustomPayload.get "action") ≠ some "LiveAgentHandoff" →
      handoffPayloadOf defaultConfig handoffResult.CustomPayload = none ∧
      (HandleVoiceRequest defaultConfig handoffEnv midCallStore speechRequest).response =
        .twiml (generateResponseTwiML defaultConfig handoffResult.ResponseText) ∧
      (generateResponseTwiML defaultConfig handoffResult.ResponseText).Dial = none ∧
      ∀ u ∈ (HandleVoiceRequest defaultConfig handoffEnv midCallStore speechRequest).saved,
        u.HandoffOccurred = midCallState.HandoffOccurred ∧
        u.HandoffReason = midCallState.HandoffReason ∧
        u.HandoffTimestamp = midCallState.HandoffTimestamp) ∧
    (handoffEnv.newClientUpdateErr = none →
      ∃ u, (HandleVoiceRequest defaultConfig handoffEnv midCallStore speechRequest).saved
        = [u]) :=
  have hnlu : ∃ c ∈
      (HandleVoiceRequest defaultConfig handoffEnv midCallStore speechRequest).nluCalls,
      queryDialogflow defaultConfig handoffEnv c.sessionID c.query c.contextText =
        .ok handoffResult :=
    ⟨speechCall, (List.Mem.head [] : speechCall ∈ [speechCall]), rfl⟩
  have hdone : handoffEnv.embed 1 handoffResult.ResponseText ≠ .panic :=
    fun h => Res.noConfusion h
  ⟨⟨rfl, rfl, rfl, rfl⟩, hnlu, hdone,
    C5_handoff_signal_sets_state_and_transfers defaultConfig handoffEnv midCallStore
      speechRequest midCallState handoffResult ⟨rfl, rfl, rfl, rfl⟩ hnlu hdone⟩

/-- Claim C6. For every event and every behaviour of the collaborators, when the loaded
state has `HandoffOccurred = true`, every state the handler hands to the store has
`HandoffOccurred = true`. -/
theorem C6_handoff_flag_is_never_reset (cfg : Config) (env : Env) (store : Store)
    (voiceRequest : VoiceRequest) (s : ConversationState)
    (hload : Loads env store voiceRequest s) (hflag : s.HandoffOccurred = true) :
    ∀ u ∈ (HandleVoiceRequest cfg env store voiceRequest).saved, u.HandoffOccurred = true := by
  intro u hu
  obtain ⟨x, s1, ctx, r, _, hp, _, _, rfl⟩ := handle_saved_mem hload hu
  obtain ⟨_, e, _, _, _, rfl⟩ := prepareTurn_some hp
  cases hpl : handoffPayloadOf cfg r.CustomPayload with
  | none => rw [((stateAfterTurn_handoff cfg env _ r).2 hpl).1]; exact hflag
  | some pl => exact ((stateAfterTurn_handoff cfg env _ r).1 pl hpl).1

/-- Witness of C6: the handed-off state, a speech event and a text answer; one state is
handed to the store. -/
theorem C6_handoff_flag_is_never_reset_witness :
    Loads workingEnv handedOffStore speechRequest handedOffState ∧
    handedOffState.HandoffOccurred = true ∧
    (HandleVoiceRequest defaultConfig workingEnv handedOffStore speechRequest).saved.length
      = 1 ∧
    ∀ u ∈ (HandleVoiceRequest defaultConfig workingEnv handedOffStore speechRequest).saved,
      u.HandoffOccurred = true :=
  ⟨⟨rfl, rfl, rfl, rfl⟩, rfl, rfl,
    C6_handoff_flag_is_never_reset defaultConfig workingEnv handedOffStore speechRequest
      handedOffState ⟨rfl, rfl, rfl, rfl⟩ rfl⟩

/-- Counterexample to C7 as stated: the loaded state was handed off at time 160 with
reason `"motivo anterior"`; a further event whose NLU result signals `LiveAgentHandoff`
again makes the handler hand to the store a state with `HandoffTimestamp = 204` (the
clock reading of this event) and the default reason. -/
theorem C7_counterexample_second_signal_overwrites :
    Loads handoffEnv handedOffStore speechRequest handedOffState ∧
    handedOffState.HandoffOccurred = true ∧
    handedOffState.HandoffTimestamp = some 160 ∧
    handedOffState.HandoffReason = "motivo anterior" ∧
    (HandleVoiceRequest defaultConfig handoffEnv handedOffStore speechRequest).saved.map
      (fun u => (u.HandoffTimestamp, u.HandoffReason)) =
      [(some 204, "El cliente ha solicitado hablar con un agente humano")] ∧
    ¬ ∀ u ∈ (HandleVoiceRequest defaultConfig handoffEnv handedOffStore speechRequest).saved,
      u.HandoffTimestamp = some 160 ∧ u.HandoffReason = handedOffState.HandoffReason := by
  have hsaved :
      (HandleVoiceRequest defaultConfig handoffEnv handedOffStore speechRequest).saved.map
        (fun u => (u.HandoffTimestamp, u.HandoffReason)) =
        [(some 204, "El cliente ha solicitado hablar con un agente humano")] := by rfl
  refine ⟨⟨rfl, rfl, rfl, rfl⟩, rfl, rfl, rfl, hsaved, ?_⟩
  intro hall
  cases hs : (HandleVoiceRequest defaultConfig handoffEnv handedOffStore speechRequest).saved with
  | nil => rw [hs] at hsaved; simp at hsaved
  | cons a t =>
    have ha := (hall a (by rw [hs]; exact List.Mem.head t)).1
    rw [hs] at hsaved
    simp only [List.map_cons, List.cons.injEq, Prod.mk.injEq] at hsaved
    rw [ha] at hsaved
    exact absurd hsaved.1.1 (by decide)

/-- Claim C7 (amended). For a loaded state that already has `HandoffOccurred = true` and
`HandoffTimestamp = t`, when no call of `queryDialogflow` made by the handler returns a
result with the string `"LiveAgentHandoff"` under `"action"`, every state the handler
hands to the store still has `HandoffOccurred = true`, `HandoffTimestamp = t` and the
loaded `HandoffReason`. -/
theorem C7_handoff_fields_kept_without_new_signal (cfg : Config) (env : Env) (store : Store)
    (voiceRequest : VoiceRequest) (s : ConversationState) (t : Time)
    (hload : Loads env store voiceRequest s)
    (hflag : s.HandoffOccurred = true) (hat : s.HandoffTimestamp = some t)
    (hno : ∀ c ∈ (HandleVoiceRequest cfg env store voiceRequest).nluCalls,
      ∀ r, queryDialogflow cfg env c.sessionID c.query c.contextText = .ok r →
        assertString (r.CustomPayload.get "action") ≠ some "LiveAgentHandoff") :
    ∀ u ∈ (HandleVoiceRequest cfg env store voiceRequest).saved,
      u.HandoffOccurred = true ∧ u.HandoffTimestamp = some t ∧
      u.HandoffReason = s.HandoffReason := by
  intro u hu
  obtain ⟨x, s1, ctx, r, _, hp, hq, hc, rfl⟩ := handle_saved_mem hload hu
  obtain ⟨_, e, _, _, _, rfl⟩ := prepareTurn_some hp
  have hpl := handoffPayloadOf_of_no_action cfg (hno _ hc r hq)
  obtain ⟨h1, h2, h3⟩ := (stateAfterTurn_handoff cfg env _ r).2 hpl
  exact ⟨h1.trans hflag, h3.trans hat, h2⟩

/-- Witness of C7 (amended): the handed-off state, a speech event and a text answer
without payload. -/
theorem C7_handoff_fields_kept_without_new_signal_witness :
    Loads workingEnv handedOffStore speechRequest handedOffState ∧
    handedOffState.HandoffOccurred = true ∧
    handedOffState.HandoffTimestamp = some 160 ∧
    (∀ c ∈ (HandleVoiceRequest defaultConfig workingEnv handedOffStore speechRequest).nluCalls,
      ∀ r, queryDialogflow defaultConfig workingEnv c.sessionID c.query c.contextText = .ok r →
        assertString (r.CustomPayload.get "action") ≠ some "LiveAgentHandoff") ∧
    (HandleVoiceRequest defaultConfig workingEnv handedOffStore speechRequest).saved.length
      = 1 ∧
    ∀ u ∈ (HandleVoiceRequest defaultConfig workingEnv handedOffStore speechRequest).saved,
      u.HandoffOccurred = true ∧ u.HandoffTimestamp = some 160 ∧
      u.HandoffReason = handedOffState.HandoffReason :=
  have hno : ∀ c ∈
      (HandleVoiceRequest defaultConfig workingEnv handedOffStore speechRequest).nluCalls,
      ∀ r, queryDialogflow defaultConfig workingEnv c.sessionID c.query c.contextText = .ok r →
        assertString (r.CustomPayload.get "action") ≠ some "LiveAgentHandoff" := by
    intro c hc r hq
    have hc1 : c ∈ [speechCall] := hc
    obtain rfl := List.mem_singleton.mp hc1
    have hq1 : (Res.ok textResult : Res DialogflowQueryResult) = .ok r := hq
    obtain rfl := Res.ok.inj hq1
    exact fun h => Option.noConfusion h
  ⟨⟨rfl, rfl, rfl, rfl⟩, rfl, rfl, hno, rfl,
    C7_handoff_fields_kept_without_new_signal defaultConfig workingEnv handedOffStore
      speechRequest handedOffState 160 ⟨rfl, rfl, rfl, rfl⟩ rfl rfl hno⟩

/-! ## Input normalisation -/

/-- Claim C8. For a loaded state with `turnIndex > 0` and an event with neither speech nor
digits, the handler answers with the re-prompt script (a `Say` and a `Gather` node, no
`Dial`, no `Hangup`), makes no call of `queryDialogflow`, hands nothing to the store and
starts no history submission; the store is unchanged and still holds the loaded state. -/
theorem C8_no_input_reprompts_without_saving (cfg : Config) (env : Env) (store : Store)
    (voiceRequest : VoiceRequest) (s : ConversationState)
    (hload : Loads env store voiceRequest s) (hpos : 0 < s.CurrentTurnIndex)
    (hspeech : voiceRequest.SpeechResult = "") (hdigits : voiceRequest.Digits = "") :
    (HandleVoiceRequest cfg env store voiceRequest).response =
      .twiml (generateErrorTwiML cfg
        "No se detectó ninguna entrada. Por favor, inténtelo de nuevo.") ∧
    (generateErrorTwiML cfg
      "No se detectó ninguna entrada. Por favor, inténtelo de nuevo.").Say.isSome = true ∧
    (generateErrorTwiML cfg
      "No se detectó ninguna entrada. Por favor, inténtelo de nuevo.").Gather.isSome = true ∧
    (generateErrorTwiML cfg
      "No se detectó ninguna entrada. Por favor, inténtelo de nuevo.").Dial = none ∧
    (generateErrorTwiML cfg
      "No se detectó ninguna entrada. Por favor, inténtelo de nuevo.").Hangup = none ∧
    (HandleVoiceRequest cfg env store voiceRequest).nluCalls = [] ∧
    (HandleVoiceRequest cfg env store voiceRequest).saved = [] ∧
    (HandleVoiceRequest cfg env store voiceRequest).historyCalls = [] ∧
    (HandleVoiceRequest cfg env store voiceRequest).store = store ∧
    (HandleVoiceRequest cfg env store voiceRequest).store voiceRequest.CallSid = some s := by
  have h0 : s.CurrentTurnIndex ≠ 0 := by omega
  have hin : userInputOf voiceRequest = none := by simp [userInputOf, hspeech, hdigits]
  have hH : HandleVoiceRequest cfg env store voiceRequest =
      { response := respondWithTwiML (generateErrorTwiML cfg
          "No se detectó ninguna entrada. Por favor, inténtelo de nuevo.")
        store := store, saved := [] } := by
    rw [handle_of_loads cfg hload]
    simp only [h0, if_false, hin]
  rw [hH]
  exact ⟨rfl, rfl, rfl, rfl, rfl, rfl, rfl, rfl, rfl, hload.2.2.2⟩

/-- Witness of C8: the state with one completed turn and a silent event. -/
theorem C8_no_input_reprompts_without_saving_witness :
    Loads workingEnv midCallStore silentRequest midCallState ∧
    0 < midCallState.CurrentTurnIndex ∧
    silentRequest.SpeechResult = "" ∧ silentRequest.Digits = "" ∧
    (HandleVoiceRequest defaultConfig workingEnv midCallStore silentRequest).response =
      .twiml (generateErrorTwiML defaultConfig
        "No se detectó ninguna entrada. Por favor, inténtelo de nuevo.") ∧
    (generateErrorTwiML defaultConfig
      "No se detectó ninguna entrada. Por favor, inténtelo de nuevo.").Say.isSome = true ∧
    (generateErrorTwiML defaultConfig
      "No se detectó ninguna entrada. Por favor, inténtelo de nuevo.").Gather.isSome = true ∧
    (generateErrorTwiML defaultConfig
      "No se detectó ninguna entrada. Por favor, inténtelo de nuevo.").Dial = none ∧
    (generateErrorTwiML defaultConfig
      "No se detectó ninguna entrada. Por favor, inténtelo de nuevo.").Hangup = none ∧
    (HandleVoiceRequest defaultConfig workingEnv midCallStore silentRequest).nluCalls = [] ∧
    (HandleVoiceRequest defaultConfig workingEnv midCallStore silentRequest).saved = [] ∧
    (HandleVoiceRequest defaultConfig workingEnv midCallStore silentRequest).historyCalls
      = [] ∧
    (HandleVoiceRequest defaultConfig workingEnv midCallStore silentRequest).store
      = midCallStore ∧
    (HandleVoiceRequest defaultConfig workingEnv midCallStore silentRequest).store
      silentRequest.CallSid = some midCallState :=
  ⟨⟨rfl, rfl, rfl, rfl⟩, by decide, rfl, rfl,
    C8_no_input_reprompts_without_saving defaultConfig workingEnv midCallStore silentRequest
      midCallState ⟨rfl, rfl, rfl, rfl⟩ (by decide) rfl rfl⟩

/-- Claim C9. The user input of an event with non-empty speech is the speech, whether or not
digits are present; that of an event with empty speech and non-empty digits `d` is
`"Presionó " ++ d`. On a loaded state that input is the query of every call of
`queryDialogflow` the handler makes (exactly one call when the turn index is non-zero and
the embedding generator does not panic) and the text of the user entry of every state the
handler hands to the store. -/
theorem C9_utterance_normalisation (cfg : Config) (env : Env) (store : Store)
    (voiceRequest : VoiceRequest) (s : ConversationState)
    (hload : Loads env store voiceRequest s) :
    (voiceRequest.SpeechResult ≠ "" →
      userInputOf voiceRequest = some voiceRequest.SpeechResult) ∧
    (voiceRequest.SpeechResult = "" → voiceRequest.Digits ≠ "" →
      userInputOf voiceRequest = some ("Presionó " ++ voiceRequest.Digits)) ∧
    ∀ x, userInputOf voiceRequest = some x →
      (∀ c ∈ (HandleVoiceRequest cfg env store voiceRequest).nluCalls, c.query = x) ∧
      (s.CurrentTurnIndex ≠ 0 → env.embed 0 x ≠ .panic →
        ∃ c, (HandleVoiceRequest cfg env store voiceRequest).nluCalls = [c] ∧ c.query = x) ∧
      (∀ u ∈ (HandleVoiceRequest cfg env store voiceRequest).saved,
        ∃ eu ea : TranscriptEntry, u.RecentTurns = s.RecentTurns ++ [eu, ea] ∧
          eu.Speaker = "user" ∧ eu.Text = x) := by
  refine ⟨fun h => by simp [userInputOf, h], fun h1 h2 => by simp [userInputOf, h1, h2], ?_⟩
  intro x hx
  refine ⟨?_, ?_, ?_⟩
  · intro c hc
    obtain ⟨y, s1, ctx, _, hy, _, rfl, _⟩ := handle_nlu_call hload hc
    rw [hx] at hy
    exact (Option.some.inj hy).symm
  · intro h0 hE
    cases hp : prepareTurn env s x with
    | none => exact absurd (prepareTurn_none hp) hE
    | some p =>
      obtain ⟨s1, ctx⟩ := p
      rw [handle_of_loads cfg hload]
      simp only [h0, if_false, hx, processTurn_of_prepared cfg store [] hp]
      cases hq : queryDialogflow cfg env s1.DialogflowSessionID x ctx with
      | err e => exact ⟨_, rfl, rfl⟩
      | panic => exact ⟨_, rfl, rfl⟩
      | ok r => exact ⟨_, finishTurn_nluCalls _ _ _ _ _ _ _, rfl⟩
  · intro u hu
    obtain ⟨y, s1, ctx, r, hy, hp, _, _, rfl⟩ := handle_saved_mem hload hu
    rw [hx] at hy
    obtain rfl := Option.some.inj hy
    obtain ⟨_, e, he1, he2, _, rfl⟩ := prepareTurn_some hp
    refine ⟨e, agentEntryOf env r, ?_, he1, he2⟩
    rw [(stateAfterTurn_frame cfg env _ r).2.1]
    simp

/-- Witness of C9: the state with one completed turn and an event with digits only. -/
theorem C9_utterance_normalisation_witness :
    Loads workingEnv midCallStore digitsRequest midCallState ∧
    (HandleVoiceRequest defaultConfig workingEnv midCallStore digitsRequest).nluCalls.map
      (fun c => c.query) = ["Presionó 42"] ∧
    ((digitsRequest.SpeechResult ≠ "" →
      userInputOf digitsRequest = some digitsRequest.SpeechResult) ∧
    (digitsRequest.SpeechResult = "" → digitsRequest.Digits ≠ "" →
      userInputOf digitsRequest = some ("Presionó " ++ digitsRequest.Digits)) ∧
    ∀ x, userInputOf digitsRequest = some x →
      (∀ c ∈ (HandleVoiceRequest defaultConfig workingEnv midCallStore digitsRequest).nluCalls,
        c.query = x) ∧
      (midCallState.CurrentTurnIndex ≠ 0 → workingEnv.embed 0 x ≠ .panic →
        ∃ c, (HandleVoiceRequest defaultConfig workingEnv midCallStore digitsRequest).nluCalls
          = [c] ∧ c.query = x) ∧
      (∀ u ∈ (HandleVoiceRequest defaultConfig workingEnv midCallStore digitsRequest).saved,
        ∃ eu ea : TranscriptEntry, u.RecentTurns = midCallState.RecentTurns ++ [eu, ea] ∧
          eu.Speaker = "user" ∧ eu.Text = x)) :=
  ⟨⟨rfl, rfl, rfl, rfl⟩, rfl,
    C9_utterance_normalisation defaultConfig workingEnv midCallStore digitsRequest
      midCallState ⟨rfl, rfl, rfl, rfl⟩⟩

/-! ## Transcript length and turn index -/

/-- Claim C10. Every state that `getOrCreateConversationState` hands to the store satisfies
`len(RecentTurns) = 2 * CurrentTurnIndex`; and for every loaded state that satisfies it
(its transcript being a Go slice, of fewer than `2^63` entries) and every event, every
state the handler hands to the store satisfies it. -/
theorem C10_turns_paired_is_invariant (cfg : Config) (env : Env) (store : Store)
    (voiceRequest : VoiceRequest) :
    (∀ st ∈ (getOrCreateConversationState env store voiceRequest).2.2, TurnsPaired st) ∧
    (∀ s, Loads env store voiceRequest s → TurnsPaired s → s.RecentTurns.length < 2 ^ 63 →
      ∀ u ∈ (HandleVoiceRequest cfg env store voiceRequest).saved, TurnsPaired u) := by
  constructor
  · intro st hst
    unfold getOrCreateConversationState at hst
    cases h1 : env.newClientGetErr with
    | some e => simp [h1] at hst
    | none =>
      simp only [h1] at hst
      cases h2 : docGet env store voiceRequest.CallSid with
      | ok doc => cases h3 : env.dataToErr <;> simp [h2, h3] at hst
      | error e =>
        cases h3 : env.docCreateErr <;> simp [h2, h3] at hst <;> subst hst <;>
          simp [TurnsPaired]
  · intro s hload hinv hlen u hu
    obtain ⟨x, s1, ctx, r, _, hp, _, _, rfl⟩ := handle_saved_mem hload hu
    obtain ⟨_, e, _, _, _, rfl⟩ := prepareTurn_some hp
    obtain ⟨f1, f2, _⟩ := stateAfterTurn_frame cfg env
      { s with
        RecentTurns := s.RecentTurns ++ [e]
        CurrentTurnIndex := incrInt s.CurrentTurnIndex } r
    unfold TurnsPaired at hinv ⊢
    have hlen' : (s.RecentTurns.length : Int) < 2 ^ 63 := by exact_mod_cast hlen
    have hnn : (0 : Int) ≤ s.RecentTurns.length := Int.natCast_nonneg _
    rw [f1, f2, incrInt_of_lt (by omega) (by omega)]
    simp only [List.length_append, List.length_cons, List.length_nil]
    push_cast
    omega

/-- Witness of C10: the state with one completed turn (two entries, index 1), a speech
event and a text answer; one state is handed to the store. -/
theorem C10_turns_paired_is_invariant_witness :
    Loads workingEnv midCallStore speechRequest midCallState ∧
    TurnsPaired midCallState ∧ midCallState.RecentTurns.length < 2 ^ 63 ∧
    (HandleVoiceRequest defaultConfig workingEnv midCallStore speechRequest).saved.length
      = 1 ∧
    ∀ u ∈ (HandleVoiceRequest defaultConfig workingEnv midCallStore speechRequest).saved,
      TurnsPaired u :=
  have hpaired : TurnsPaired midCallState := by unfold TurnsPaired; decide
  ⟨⟨rfl, rfl, rfl, rfl⟩, hpaired, by decide, rfl,
    (C10_turns_paired_is_invariant defaultConfig workingEnv midCallStore speechRequest).2
      midCallState ⟨rfl, rfl, rfl, rfl⟩ hpaired (by decide)⟩

/-! ## The save of the session store -/

/-- Counterexample to C11 as stated: the store holds a state of call `CA1` with turn
index 5; `updateConversationState` is called with a state of the same call whose turn
index is 1. The call succeeds and the store then holds the state with index 1, not the
one with index 5. -/
theorem C11_counterexample_older_update_overwrites :
    laterTurnStore "CA1" = some laterTurnState ∧
    midCallState.CallSid = laterTurnState.CallSid ∧
    midCallState.CurrentTurnIndex < laterTurnState.CurrentTurnIndex ∧
    (updateConversationState workingEnv laterTurnStore midCallState).1 = none ∧
    (updateConversationState workingEnv laterTurnStore midCallState).2.1 "CA1" =
      some midCallState ∧
    (updateConversationState workingEnv laterTurnStore midCallState).2.1 "CA1" ≠
      some laterTurnState := by
  refine ⟨rfl, rfl, by decide, rfl, rfl, ?_⟩
  have h : (updateConversationState workingEnv laterTurnStore midCallState).2.1 "CA1" =
      some midCallState := rfl
  rw [h]
  decide

/-- Claim C11 (amended). `updateConversationState` compares no turn index: for every
stored state `s` and every state `u` saved under the same document, whatever their turn
indices, when the Firestore client is created and the write succeeds the call returns no
error and the stored state is `u`, every other document being untouched; when the call
returns an error the stored state is still `s`. -/
theorem C11_save_overwrites_whatever_the_index (env : Env) (store : Store)
    (s u : ConversationState) (hs : store u.CallSid = some s) :
    (env.newClientUpdateErr = none → env.docUpdateErr = none →
      (updateConversationState env store u).1 = none ∧
      (updateConversationState env store u).2.1 u.CallSid = some u ∧
      ∀ doc, doc ≠ u.CallSid → (updateConversationState env store u).2.1 doc = store doc) ∧
    ((updateConversationState env store u).1 ≠ none →
      (updateConversationState env store u).2.1 u.CallSid = some s) := by
  unfold updateConversationState
  constructor
  · intro h1 h2
    simp only [h1, h2, Store.set, if_true, true_and]
    intro doc hdoc
    simp [hdoc]
  · intro herr
    cases h1 : env.newClientUpdateErr with
    | some e => simpa [h1] using hs
    | none =>
      cases h2 : env.docUpdateErr with
      | some e => simpa [h1, h2] using hs
      | none => simp [h1, h2] at herr

/-- Witness of C11 (amended): the state with index 1 saved over the stored state with
index 5, with the write succeeding. -/
theorem C11_save_overwrites_whatever_the_index_witness :
    laterTurnStore midCallState.CallSid = some laterTurnState ∧
    workingEnv.newClientUpdateErr = none ∧ workingEnv.docUpdateErr = none ∧
    (updateConversationState workingEnv laterTurnStore midCallState).1 = none ∧
    (updateConversationState workingEnv laterTurnStore midCallState).2.1
      midCallState.CallSid = some midCallState ∧
    ∀ doc, doc ≠ midCallState.CallSid →
      (updateConversationState workingEnv laterTurnStore midCallState).2.1 doc =
        laterTurnStore doc :=
  ⟨rfl, rfl, rfl,
    (C11_save_overwrites_whatever_the_index workingEnv laterTurnStore laterTurnState
      midCallState rfl).1 rfl rfl⟩

/-! ## The response and the outcome of the save -/

theorem finishTurn_response (cfg : Config) (env : Env) (store : Store)
    (saved : List ConversationState) (calls : List NLUCall) (s1 : ConversationState)
    (r : DialogflowQueryResult) :
    (finishTurn cfg env store saved calls s1 r).response =
      match env.embed 1 r.ResponseText with
      | .panic => .panicked
      | _ => .twiml (scriptAfterTurn cfg r) := by
  cases hE : env.embed 1 r.ResponseText with
  | panic => rw [finishTurn_of_panic hE]
  | err m => rw [finishTurn_of_embedded (by simp [hE])]
  | ok v => rw [finishTurn_of_embedded (by simp [hE])]

/-- Claim C13. Two runs of `HandleVoiceRequest` on the same configuration, store and
event, with collaborators that differ only in the outcome of the two calls made by
`updateConversationState` (creating the Firestore client and writing the document), give
the same response and make the same calls of `queryDialogflow`. -/
theorem C13_response_independent_of_save_outcome (cfg : Config) (env : Env) (store : Store)
    (voiceRequest : VoiceRequest) (clientErr writeErr : Option String) :
    (HandleVoiceRequest cfg
        { env with newClientUpdateErr := clientErr, docUpdateErr := writeErr }
        store voiceRequest).response =
      (HandleVoiceRequest cfg env store voiceRequest).response ∧
    (HandleVoiceRequest cfg
        { env with newClientUpdateErr := clientErr, docUpdateErr := writeErr }
        store voiceRequest).nluCalls =
      (HandleVoiceRequest cfg env store voiceRequest).nluCalls := by
  have hg : getOrCreateConversationState
      { env with newClientUpdateErr := clientErr, docUpdateErr := writeErr } store voiceRequest =
      getOrCreateConversationState env store voiceRequest := rfl
  simp only [HandleVoiceRequest, hg]
  rcases getOrCreateConversationState env store voiceRequest with ⟨res, st, saved⟩
  cases res with
  | error e => exact ⟨rfl, rfl⟩
  | ok s =>
    simp only
    split_ifs
    · exact ⟨rfl, rfl⟩
    · cases userInputOf voiceRequest with
      | none => exact ⟨rfl, rfl⟩
      | some x =>
        have hp : prepareTurn
            { env with newClientUpdateErr := clientErr, docUpdateErr := writeErr } s x =
            prepareTurn env s x := rfl
        simp only [processTurn, hp]
        cases prepareTurn env s x with
        | none => exact ⟨rfl, rfl⟩
        | some p =>
          obtain ⟨s1, ctx⟩ := p
          have hq : queryDialogflow cfg
              { env with newClientUpdateErr := clientErr, docUpdateErr := writeErr }
              s1.DialogflowSessionID x ctx =
              queryDialogflow cfg env s1.DialogflowSessionID x ctx := rfl
          simp only [hq]
          cases queryDialogflow cfg env s1.DialogflowSessionID x ctx with
          | err e => exact ⟨rfl, rfl⟩
          | panic => exact ⟨rfl, rfl⟩
          | ok r =>
            refine ⟨?_, ?_⟩
            · rw [finishTurn_response, finishTurn_response]
            · rw [finishTurn_nluCalls, finishTurn_nluCalls]

/-- The two runs compared in C13 do differ in what they store: with the write failing the
store keeps the loaded state, with the write succeeding it holds the new one, and the
response is the same script. -/
theorem save_outcome_changes_store_only :
    ((HandleVoiceRequest defaultConfig workingEnv midCallStore speechRequest).store "CA1").map
      (fun st => st.CurrentTurnIndex) = some 2 ∧
    ((HandleVoiceRequest defaultConfig failingSaveEnv midCallStore speechRequest).store
      "CA1").map (fun st => st.CurrentTurnIndex) = some 1 ∧
    (HandleVoiceRequest defaultConfig failingSaveEnv midCallStore speechRequest).response =
      (HandleVoiceRequest defaultConfig workingEnv midCallStore speechRequest).response := by
  refine ⟨by rfl, by rfl, by rfl⟩

/-! ## The response script builder -/

/-- Claim C14. The greeting, normal and error scripts each have a `Say` (Speak) node and a
`Gather` (Listen) node and neither a `Dial` (Transfer) nor a `Hangup` (End) node, the `Say`
text of the normal and error scripts being the given text; the handoff script has a `Say`
node whose text is the given text followed by the fixed transition phrase and a `Dial`
node whose number is the payload's transfer number, and neither a `Gather` nor a `Hangup`
node; and two configurations with the same text-to-speech and speech-to-text language
codes give the same four scripts. -/
theorem C14_script_composition (cfg cfg' : Config) (text : String)
    (handoffPayload : LiveAgentHandoffPayload)
    (htts : cfg'.ttsLanguageCode = cfg.ttsLanguageCode)
    (hstt : cfg'.sttLanguageCode = cfg.sttLanguageCode) :
    ((generateWelcomeTwiML cfg).Say.isSome = true ∧
      (generateWelcomeTwiML cfg).Gather.isSome = true ∧
      (generateWelcomeTwiML cfg).Dial = none ∧ (generateWelcomeTwiML cfg).Hangup = none) ∧
    ((generateResponseTwiML cfg text).Say.map (fun say => say.Value) = some text ∧
      (generateResponseTwiML cfg text).Gather.isSome = true ∧
      (generateResponseTwiML cfg text).Dial = none ∧
      (generateResponseTwiML cfg text).Hangup = none) ∧
    ((generateErrorTwiML cfg text).Say.map (fun say => say.Value) = some text ∧
      (generateErrorTwiML cfg text).Gather.isSome = true ∧
      (generateErrorTwiML cfg text).Dial = none ∧
      (generateErrorTwiML cfg text).Hangup = none) ∧
    ((generateHandoffTwiML cfg handoffPayload text).Say.map (fun say => say.Value) =
        some (text ++ " Le transferiré con un agente humano. Por favor, espere un momento.") ∧
      (generateHandoffTwiML cfg handoffPayload text).Dial.map (fun dial => dial.Number) =
        some handoffPayload.TransferNumber ∧
      (generateHandoffTwiML cfg handoffPayload text).Gather = none ∧
      (generateHandoffTwiML cfg handoffPayload text).Hangup = none) ∧
    (generateWelcomeTwiML cfg' = generateWelcomeTwiML cfg ∧
      generateResponseTwiML cfg' text = generateResponseTwiML cfg text ∧
      generateErrorTwiML cfg' text = generateErrorTwiML cfg text ∧
      generateHandoffTwiML cfg' handoffPayload text =
        generateHandoffTwiML cfg handoffPayload text) := by
  refine ⟨⟨rfl, rfl, rfl, rfl⟩, ⟨rfl, rfl, rfl, rfl⟩, ⟨rfl, rfl, rfl, rfl⟩,
    ⟨rfl, rfl, rfl, rfl⟩, ?_, ?_, ?_, ?_⟩ <;>
  simp only [generateWelcomeTwiML, generateResponseTwiML, generateErrorTwiML,
    generateHandoffTwiML, htts, hstt]

/-- Witness of C14: the default configuration and one with another project, voice and
transfer number, the text `"Entendido."` and a payload with a transfer number. -/
theorem C14_script_composition_witness :
    otherProjectConfig.ttsLanguageCode = defaultConfig.ttsLanguageCode ∧
    otherProjectConfig.sttLanguageCode = defaultConfig.sttLanguageCode ∧
    otherProjectConfig ≠ defaultConfig ∧
    (generateHandoffTwiML defaultConfig samplePayload "Entendido.").Dial.map
      (fun dial => dial.Number) = some "+56987654321" ∧
    generateHandoffTwiML otherProjectConfig samplePayload "Entendido." =
      generateHandoffTwiML defaultConfig samplePayload "Entendido." :=
  have h := C14_script_composition defaultConfig otherProjectConfig "Entendido." samplePayload
    rfl rfl
  ⟨rfl, rfl, by decide, h.2.2.2.1.2.1, h.2.2.2.2.2.2.2⟩

/-! ## Redelivery of an event -/

/-- Every state the handler hands to the store on a loaded state with turn index between
1 and `2^63 - 2` is the loaded state with the index incremented and a user entry and an
agent entry appended. -/
theorem saved_state_of_turn {cfg : Config} {env : Env} {store : Store}
    {voiceRequest : VoiceRequest} {s u : ConversationState}
    (hload : Loads env store voiceRequest s)
    (hpos : 0 < s.CurrentTurnIndex) (hmax : s.CurrentTurnIndex < 2 ^ 63 - 1)
    (hu : u ∈ (HandleVoiceRequest cfg env store voiceRequest).saved) :
    ∃ x r eu, userInputOf voiceRequest = some x ∧ eu.Speaker = "user" ∧ eu.Text = x ∧
      u.CurrentTurnIndex = s.CurrentTurnIndex + 1 ∧
      u.RecentTurns = s.RecentTurns ++ [eu, agentEntryOf env r] := by
  obtain ⟨x, s1, ctx, r, hx, hp, _, _, rfl⟩ := handle_saved_mem hload hu
  obtain ⟨_, e, he1, he2, _, rfl⟩ := prepareTurn_some hp
  obtain ⟨f1, f2, _⟩ := stateAfterTurn_frame cfg env
    { s with
      RecentTurns := s.RecentTurns ++ [e]
      CurrentTurnIndex := incrInt s.CurrentTurnIndex } r
  refine ⟨x, r, e, hx, he1, he2, ?_, ?_⟩
  · rw [f1]
    exact incrInt_of_lt (by omega) hmax
  · rw [f2]
    simp

/-- Counterexample to C12 as stated: the store holds the state of call `CA1` with one
completed turn; the speech event is processed with every collaborator working, and then
delivered and processed a second time. After the first delivery the stored state has turn
index 2 and four recent turns; after the second it has turn index 3 and six recent turns,
the user utterance and the answer being there twice. -/
theorem C12_counterexample_redelivery_duplicates :
    turnOutcome.saved = [secondTurnState] ∧
    turnOutcome.store "CA1" = some secondTurnState ∧
    redeliveredOutcome.saved = [thirdTurnState] ∧
    redeliveredOutcome.store "CA1" = some thirdTurnState ∧
    secondTurnState.RecentTurns.map (·.Text) =
      ["hola", "Hola, ¿en qué le ayudo?", "quiero hablar con un agente",
        "Claro, le ayudo."] ∧
    thirdTurnState.RecentTurns.map (·.Text) =
      ["hola", "Hola, ¿en qué le ayudo?", "quiero hablar con un agente",
        "Claro, le ayudo.", "quiero hablar con un agente", "Claro, le ayudo."] ∧
    secondTurnState.CurrentTurnIndex = 2 ∧ thirdTurnState.CurrentTurnIndex = 3 ∧
    thirdTurnState.RecentTurns ≠ secondTurnState.RecentTurns := by
  refine ⟨by rfl, by rfl, by rfl, by rfl, by rfl, by rfl, by rfl, by rfl, ?_⟩
  intro h
  exact absurd (congrArg List.length h) (by decide)

/-- Claim C12 (amended). A redelivered event is processed as a new turn. For a loaded
state `s` with turn index between 1 and `2^63 - 3`: when the first delivery hands `u1` to
the store and the second delivery, processed on the store left by the first, loads `u1`
and hands `u2` to the store, then `u1` has turn index `old + 1` and recent turns
`old ++ [e1, a1]`, and `u2` has turn index `old + 2` and recent turns
`old ++ [e1, a1, e2, a2]`, where `e1` and `e2` are user entries that both carry the
utterance of the event and `a1`, `a2` are agent entries; in particular the turn index of
the successive saved states increases. -/
theorem C12_redelivery_is_processed_as_a_new_turn (cfg : Config) (env env2 : Env)
    (store : Store) (voiceRequest : VoiceRequest) (s u1 u2 : ConversationState)
    (hload : Loads env store voiceRequest s)
    (hpos : 0 < s.CurrentTurnIndex) (hmax : s.CurrentTurnIndex < 2 ^ 63 - 2)
    (hfirst : u1 ∈ (HandleVoiceRequest cfg env store voiceRequest).saved)
    (hload2 : Loads env2 (HandleVoiceRequest cfg env store voiceRequest).store voiceRequest u1)
    (hsecond : u2 ∈ (HandleVoiceRequest cfg env2
      (HandleVoiceRequest cfg env store voiceRequest).store voiceRequest).saved) :
    ∃ x e1 a1 e2 a2, userInputOf voiceRequest = some x ∧
      u1.CurrentTurnIndex = s.CurrentTurnIndex + 1 ∧
      u1.RecentTurns = s.RecentTurns ++ [e1, a1] ∧
      u2.CurrentTurnIndex = s.CurrentTurnIndex + 2 ∧
      u2.RecentTurns = s.RecentTurns ++ [e1, a1, e2, a2] ∧
      e1.Speaker = "user" ∧ e1.Text = x ∧ e2.Speaker = "user" ∧ e2.Text = x ∧
      a1.Speaker = "ai" ∧ a2.Speaker = "ai" ∧
      s.CurrentTurnIndex < u1.CurrentTurnIndex ∧
      u1.CurrentTurnIndex < u2.CurrentTurnIndex := by
  obtain ⟨x, r1, e1, hx, h11, h12, h13, h14⟩ :=
    saved_state_of_turn hload hpos (by omega) hfirst
  obtain ⟨x2, r2, e2, hx2, h21, h22, h23, h24⟩ :=
    saved_state_of_turn hload2 (by omega) (by omega) hsecond
  rw [hx] at hx2
  obtain rfl : x = x2 := Option.some.inj hx2
  refine ⟨x, e1, agentEntryOf env r1, e2, agentEntryOf env2 r2, hx, h13, h14, ?_, ?_, h11,
    h12, h21, h22, (agentEntryOf_fields env r1).1, (agentEntryOf_fields env2 r2).1, ?_, ?_⟩
  · omega
  · rw [h24, h14]
    simp
  · omega
  · omega

/-- Witness of C12 (amended): the speech event of call `CA1` processed twice. -/
theorem C12_redelivery_is_processed_as_a_new_turn_witness :
    Loads workingEnv midCallStore speechRequest midCallState ∧
    0 < midCallState.CurrentTurnIndex ∧ midCallState.CurrentTurnIndex < 2 ^ 63 - 2 ∧
    secondTurnState ∈
      (HandleVoiceRequest defaultConfig workingEnv midCallStore speechRequest).saved ∧
    Loads workingEnv
      (HandleVoiceRequest defaultConfig workingEnv midCallStore speechRequest).store
      speechRequest secondTurnState ∧
    thirdTurnState ∈ (HandleVoiceRequest defaultConfig workingEnv
      (HandleVoiceRequest defaultConfig workingEnv midCallStore speechRequest).store
      speechRequest).saved ∧
    ∃ x e1 a1 e2 a2, userInputOf speechRequest = some x ∧
      secondTurnState.CurrentTurnIndex = midCallState.CurrentTurnIndex + 1 ∧
      secondTurnState.RecentTurns = midCallState.RecentTurns ++ [e1, a1] ∧
      thirdTurnState.CurrentTurnIndex = midCallState.CurrentTurnIndex + 2 ∧
      thirdTurnState.RecentTurns = midCallState.RecentTurns ++ [e1, a1, e2, a2] ∧
      e1.Speaker = "user" ∧ e1.Text = x ∧ e2.Speaker = "user" ∧ e2.Text = x ∧
      a1.Speaker = "ai" ∧ a2.Speaker = "ai" ∧
      midCallState.CurrentTurnIndex < secondTurnState.CurrentTurnIndex ∧
      secondTurnState.CurrentTurnIndex < thirdTurnState.CurrentTurnIndex :=
  have hfirst : secondTurnState ∈
      (HandleVoiceRequest defaultConfig workingEnv midCallStore speechRequest).saved :=
    (List.Mem.head [] : secondTurnState ∈ [secondTurnState])
  have hload2 : Loads workingEnv
      (HandleVoiceRequest defaultConfig workingEnv midCallStore speechRequest).store
      speechRequest secondTurnState := ⟨rfl, rfl, rfl, rfl⟩
  have hsecond : thirdTurnState ∈ (HandleVoiceRequest defaultConfig workingEnv
      (HandleVoiceRequest defaultConfig workingEnv midCallStore speechRequest).store
      speechRequest).saved :=
    (List.Mem.head [] : thirdTurnState ∈ [thirdTurnState])
  ⟨⟨rfl, rfl, rfl, rfl⟩, by decide, by decide, hfirst, hload2, hsecond,
    C12_redelivery_is_processed_as_a_new_turn defaultConfig workingEnv workingEnv midCallStore
      speechRequest midCallState secondTurnState thirdTurnState ⟨rfl, rfl, rfl, rfl⟩
      (by decide) (by decide) hfirst hload2 hsecond⟩

/-! ## The response is a script -/

/-- Whenever the handler writes a response, it is a script with a `Say` node and no
`Hangup` node, and with either a `Dial` node and no `Gather` node or a `Gather` node and
no `Dial` node. -/
theorem handle_response_shape (cfg : Config) (env : Env) (store : Store)
    (voiceRequest : VoiceRequest) (t : TwiMLResponse)
    (h : (HandleVoiceRequest cfg env store voiceRequest).response = .twiml t) :
    t.Say.isSome = true ∧ t.Hangup = none ∧
      ((t.Dial.isSome = true ∧ t.Gather = none) ∨
        (t.Dial = none ∧ t.Gather.isSome = true)) := by
  have hscript : ∀ r : DialogflowQueryResult,
      (scriptAfterTurn cfg r).Say.isSome = true ∧ (scriptAfterTurn cfg r).Hangup = none ∧
      (((scriptAfterTurn cfg r).Dial.isSome = true ∧ (scriptAfterTurn cfg r).Gather = none) ∨
        ((scriptAfterTurn cfg r).Dial = none ∧
          (scriptAfterTurn cfg r).Gather.isSome = true)) := by
    intro r
    unfold scriptAfterTurn
    cases handoffPayloadOf cfg r.CustomPayload with
    | none => exact ⟨rfl, rfl, Or.inr ⟨rfl, rfl⟩⟩
    | some hp => exact ⟨rfl, rfl, Or.inl ⟨rfl, rfl⟩⟩
  have herror : ∀ e : String, respondWithError cfg e = .twiml t →
      t.Say.isSome = true ∧ t.Hangup = none ∧
      ((t.Dial.isSome = true ∧ t.Gather = none) ∨
        (t.Dial = none ∧ t.Gather.isSome = true)) := by
    intro e he
    simp only [respondWithError, respondWithTwiML, Response.twiml.injEq] at he
    subst he
    exact ⟨rfl, rfl, Or.inr ⟨rfl, rfl⟩⟩
  simp only [HandleVoiceRequest] at h
  revert h
  rcases getOrCreateConversationState env store voiceRequest with ⟨res, st, saved⟩
  intro h
  cases res with
  | error e => exact herror e h
  | ok s =>
    simp only at h
    split_ifs at h
    · simp only [respondWithTwiML, Response.twiml.injEq] at h
      subst h
      exact ⟨rfl, rfl, Or.inr ⟨rfl, rfl⟩⟩
    · cases hx : userInputOf voiceRequest with
      | none =>
        simp only [hx, respondWithTwiML, Response.twiml.injEq] at h
        subst h
        exact ⟨rfl, rfl, Or.inr ⟨rfl, rfl⟩⟩
      | some x =>
        simp only [hx, processTurn] at h
        cases hp : prepareTurn env s x with
        | none => simp [hp] at h
        | some p =>
          obtain ⟨s1, ctx⟩ := p
          simp only [hp] at h
          cases hq : queryDialogflow cfg env s1.DialogflowSessionID x ctx with
          | err e =>
            simp only [hq] at h
            exact herror e h
          | panic => simp [hq] at h
          | ok r =>
            simp only [hq, finishTurn_response] at h
            cases hE : env.embed 1 r.ResponseText with
            | panic => simp [hE] at h
            | err m =>
              simp only [hE, Response.twiml.injEq] at h
              subst h
              exact hscript r
            | ok v =>
              simp only [hE, Response.twiml.injEq] at h
              subst h
              exact hscript r

/-- Claim C15 (the code at the failing input). The store holds the state of call `CA1`
with one completed turn, the event carries speech, and Dialogflow answers successfully
with a query result that has no response messages. `queryDialogflow` is called and
panics on `ResponseMessages[0]`, so the handler writes no script at all: nothing is
handed to the store and the response is not a script, where the claim has a script with
a `Say` node for every behaviour of the collaborators. -/
theorem C15_no_script_when_answer_has_no_messages :
    Loads emptyAnswerEnv midCallStore speechRequest midCallState ∧
    (HandleVoiceRequest defaultConfig emptyAnswerEnv midCallStore speechRequest).nluCalls =
      [speechCall] ∧
    queryDialogflow defaultConfig emptyAnswerEnv speechCall.sessionID speechCall.query
      speechCall.contextText = .panic ∧
    (HandleVoiceRequest defaultConfig emptyAnswerEnv midCallStore speechRequest).response =
      .panicked ∧
    (HandleVoiceRequest defaultConfig emptyAnswerEnv midCallStore speechRequest).saved = [] ∧
    ∀ t : TwiMLResponse,
      (HandleVoiceRequest defaultConfig emptyAnswerEnv midCallStore speechRequest).response ≠
        .twiml t := by
  refine ⟨⟨rfl, rfl, rfl, rfl⟩, by rfl, by rfl, by rfl, by rfl, ?_⟩
  intro t h
  have hp : (HandleVoiceRequest defaultConfig emptyAnswerEnv midCallStore
      speechRequest).response = .panicked := by rfl
  rw [hp] at h
  cases h

/-! ## Context assembly -/

theorem foldl_append_eq (l : List String) (a : String) :
    l.foldl (fun r s => r ++ s) a = a ++ l.foldl (fun r s => r ++ s) "" := by
  induction l generalizing a with
  | nil => simp
  | cons x xs ih =>
    simp only [List.foldl_cons]
    rw [ih (a ++ x), ih ("" ++ x)]
    simp [String.append_assoc]

theorem foldl_lines_eq (hits : List VectorSearchMatch) (a : String) :
    hits.foldl (fun acc m => acc ++ ("- " ++ m.Text ++ "\n")) a =
      a ++ String.join (hits.map (fun m => "- " ++ m.Text ++ "\n")) := by
  induction hits generalizing a with
  | nil => simp [String.join]
  | cons x xs ih =>
    simp only [List.foldl_cons, List.map_cons]
    rw [ih]
    simp only [String.join, List.foldl_cons]
    rw [foldl_append_eq _ ("" ++ _)]
    simp [String.append_assoc]

/-- The context text without an embedding is empty, whatever the retriever does. -/
theorem contextTextOf_nil (env : Env) (tenantID fromNumber : String) :
    contextTextOf env [] tenantID fromNumber = "" := rfl

/-- The context text for a non-empty embedding, by the outcome of the retriever. -/
theorem contextTextOf_cons (env : Env) (v : List Float64) (tenantID fromNumber : String)
    (hv : v ≠ []) :
    contextTextOf env v tenantID fromNumber =
      match env.search v tenantID fromNumber with
      | .error _ => ""
      | .ok [] => ""
      | .ok (m :: ms) =>
        "Contexto adicional de conversaciones anteriores:\n" ++
          String.join ((m :: ms).map (fun m => "- " ++ m.Text ++ "\n")) := by
  have hlen : v.length > 0 := List.length_pos.mpr hv
  unfold contextTextOf
  simp only [hlen, if_true]
  cases hs : env.search v tenantID fromNumber with
  | error e => rfl
  | ok hits =>
    cases hits with
    | nil => rfl
    | cons m ms =>
      simp only [List.length_cons, gt_iff_lt, Nat.zero_lt_succ, if_true]
      exact foldl_lines_eq (m :: ms) _

/-- When the first embedding call does not panic, `prepareTurn` gives a state with the
session identifier of the given state and the context text of the embedding obtained. -/
theorem prepareTurn_context {env : Env} (s : ConversationState) {x : String}
    (hE : env.embed 0 x ≠ .panic) :
    ∃ s1, prepareTurn env s x =
        some (s1, contextTextOf env
          (match env.embed 0 x with
            | .ok e => e
            | _ => []) s.TenantID s.FromNumber) ∧
      s1.DialogflowSessionID = s.DialogflowSessionID := by
  unfold prepareTurn
  cases h : env.embed 0 x with
  | panic => exact absurd h hE
  | err m => exact ⟨_, rfl, rfl⟩
  | ok v => exact ⟨_, rfl, rfl⟩

/-- A turn on a loaded state, when the first embedding call does not panic: the handler
queries Dialogflow once, in the session of the loaded state, with the utterance and the
context text of the embedding obtained, and continues with the outcome of that call. -/
theorem handle_turn_eq (cfg : Config) {env : Env} {store : Store}
    {voiceRequest : VoiceRequest} {s : ConversationState} {x : String}
    (hload : Loads env store voiceRequest s) (hidx : s.CurrentTurnIndex ≠ 0)
    (hin : userInputOf voiceRequest = some x) (hE : env.embed 0 x ≠ .panic) :
    ∃ s1 ctx, prepareTurn env s x = some (s1, ctx) ∧
      ctx = contextTextOf env
        (match env.embed 0 x with
          | .ok e => e
          | _ => []) s.TenantID s.FromNumber ∧
      (HandleVoiceRequest cfg env store voiceRequest).nluCalls =
        [{ sessionID := s.DialogflowSessionID, query := x, contextText := ctx }] ∧
      HandleVoiceRequest cfg env store voiceRequest =
        match queryDialogflow cfg env s.DialogflowSessionID x ctx with
        | .err e =>
          { response := respondWithError cfg e, store := store, saved := [],
            nluCalls :=
              [{ sessionID := s.DialogflowSessionID, query := x, contextText := ctx }] }
        | .panic =>
          { response := .panicked, store := store, saved := [],
            nluCalls :=
              [{ sessionID := s.DialogflowSessionID, query := x, contextText := ctx }] }
        | .ok r =>
          finishTurn cfg env store []
            [{ sessionID := s.DialogflowSessionID, query := x, contextText := ctx }] s1 r := by
  obtain ⟨s1, hp, hs1⟩ := prepareTurn_context s hE
  have hH := processTurn_of_prepared cfg store [] hp
  rw [hs1] at hH
  refine ⟨s1, _, hp, rfl, ?_, ?_⟩
  · rw [handle_of_loads cfg hload]
    simp only [hidx, if_false, hin, hH]
    cases queryDialogflow cfg env s.DialogflowSessionID x
      (contextTextOf env
        (match env.embed 0 x with
          | .ok e => e
          | _ => []) s.TenantID s.FromNumber) with
    | err e => rfl
    | panic => rfl
    | ok r => simp only [finishTurn_nluCalls]
  · rw [handle_of_loads cfg hload]
    simp only [hidx, if_false, hin, hH]

/-- Claim C16. For a turn on a loaded state (the first embedding call not panicking), the
handler queries Dialogflow exactly once, with the utterance and a context text `ctx` such
that: `ctx` is empty when the embedding call failed or returned an empty vector, and then
the context retriever has no part in the query (with any other retriever the same call is
made); for a non-empty vector, `ctx` is empty when the retriever fails or returns no
match, and when it returns matches `ctx` is the header line followed by one line
`"- " ++ text` per match, in the order returned. In every case the turn goes on with the
outcome of that query: an error gives the error script, and a result `r` (the second
embedding call not panicking) gives the script of `r`, with exactly one state, two
entries longer than the loaded one, handed to the store when the client is created. -/
theorem C16_context_assembly (cfg : Config) (env : Env) (store : Store)
    (voiceRequest : VoiceRequest) (s : ConversationState) (x : String)
    (hload : Loads env store voiceRequest s) (hidx : s.CurrentTurnIndex ≠ 0)
    (hin : userInputOf voiceRequest = some x) (hE : env.embed 0 x ≠ .panic) :
    ∃ ctx,
      (HandleVoiceRequest cfg env store voiceRequest).nluCalls =
        [{ sessionID := s.DialogflowSessionID, query := x, contextText := ctx }] ∧
      (((∃ m, env.embed 0 x = .err m) ∨ env.embed 0 x = .ok []) →
        ctx = "" ∧
        ∀ search', (HandleVoiceRequest cfg { env with search := search' } store
            voiceRequest).nluCalls =
          [{ sessionID := s.DialogflowSessionID, query := x, contextText := "" }]) ∧
      (∀ v, env.embed 0 x = .ok v → v ≠ [] →
        (∀ e, env.search v s.TenantID s.FromNumber = .error e → ctx = "") ∧
        (env.search v s.TenantID s.FromNumber = .ok [] → ctx = "") ∧
        (∀ m ms, env.search v s.TenantID s.FromNumber = .ok (m :: ms) →
          ctx = "Contexto adicional de conversaciones anteriores:\n" ++
            String.join ((m :: ms).map (fun m => "- " ++ m.Text ++ "\n")))) ∧
      (∀ e, queryDialogflow cfg env s.DialogflowSessionID x ctx = .err e →
        (HandleVoiceRequest cfg env store voiceRequest).response = respondWithError cfg e) ∧
      (∀ r, queryDialogflow cfg env s.DialogflowSessionID x ctx = .ok r →
        env.embed 1 r.ResponseText ≠ .panic →
        (HandleVoiceRequest cfg env store voiceRequest).response =
          .twiml (scriptAfterTurn cfg r) ∧
        (env.newClientUpdateErr = none →
          ∃ u, (HandleVoiceRequest cfg env store voiceRequest).saved = [u] ∧
            u.RecentTurns.length = s.RecentTurns.length + 2)) := by
  obtain ⟨s1, ctx, hp, hctx, hcalls, hH⟩ := handle_turn_eq cfg hload hidx hin hE
  refine ⟨ctx, hcalls, ?_, ?_, ?_, ?_⟩
  · intro hemb
    have hnil : (match env.embed 0 x with
        | .ok e => e
        | _ => []) = [] := by
      rcases hemb with ⟨m, hm⟩ | h0
      · rw [hm]
      · rw [h0]
    refine ⟨by rw [hctx, hnil]; rfl, ?_⟩
    intro search'
    have hload' : Loads { env with search := search' } store voiceRequest s := hload
    have hE' : ({ env with search := search' } : Env).embed 0 x ≠ .panic := hE
    obtain ⟨_, ctx', _, hctx', hcalls', _⟩ :=
      handle_turn_eq cfg hload' hidx hin hE'
    have hnil' : (match ({ env with search := search' } : Env).embed 0 x with
        | .ok e => e
        | _ => []) = [] := hnil
    rw [hcalls', hctx', hnil']
    rfl
  · intro v hv hne
    have hvec : (match env.embed 0 x with
        | .ok e => e
        | _ => []) = v := by rw [hv]
    rw [hvec, contextTextOf_cons env v _ _ hne] at hctx
    refine ⟨?_, ?_, ?_⟩
    · intro e he
      rw [hctx, he]
    · intro he
      rw [hctx, he]
    · intro m ms he
      rw [hctx, he]
  · intro e he
    rw [hH, he]
  · intro r hr hE1
    simp only [hr] at hH
    rw [hH, finishTurn_of_embedded hE1]
    refine ⟨rfl, ?_⟩
    intro hclient
    obtain ⟨g1, _⟩ := update_of_client store (stateAfterTurn cfg env s1 r) hclient
    refine ⟨stateAfterTurn cfg env s1 r, by simp [g1], ?_⟩
    obtain ⟨_, e, _, _, _, rfl⟩ := prepareTurn_some hp
    rw [(stateAfterTurn_frame cfg env _ r).2.1]
    simp

/-- Witness of C16: the speech event of call `CA1` on the state with one completed turn,
with a retriever that returns two matches. -/
theorem C16_context_assembly_witness :
    Loads retrievingEnv midCallStore speechRequest midCallState ∧
    midCallState.CurrentTurnIndex ≠ 0 ∧
    userInputOf speechRequest = some "quiero hablar con un agente" ∧
    retrievingEnv.embed 0 "quiero hablar con un agente" ≠ .panic ∧
    (HandleVoiceRequest defaultConfig retrievingEnv midCallStore speechRequest).nluCalls =
      [{ sessionID := "twilio-CA1", query := "quiero hablar con un agente",
         contextText := "Contexto adicional de conversaciones anteriores:\n" ++
           "- Pidió una factura.\n- Cambió su plan.\n" }] ∧
    ∃ ctx,
      (HandleVoiceRequest defaultConfig retrievingEnv midCallStore speechRequest).nluCalls =
        [{ sessionID := midCallState.DialogflowSessionID,
           query := "quiero hablar con un agente", contextText := ctx }] ∧
      (((∃ m, retrievingEnv.embed 0 "quiero hablar con un agente" = .err m) ∨
          retrievingEnv.embed 0 "quiero hablar con un agente" = .ok []) →
        ctx = "" ∧
        ∀ search', (HandleVoiceRequest defaultConfig { retrievingEnv with search := search' }
            midCallStore speechRequest).nluCalls =
          [{ sessionID := midCallState.DialogflowSessionID,
             query := "quiero hablar con un agente", contextText := "" }]) ∧
      (∀ v, retrievingEnv.embed 0 "quiero hablar con un agente" = .ok v → v ≠ [] →
        (∀ e, retrievingEnv.search v midCallState.TenantID midCallState.FromNumber =
          .error e → ctx = "") ∧
        (retrievingEnv.search v midCallState.TenantID midCallState.FromNumber = .ok [] →
          ctx = "") ∧
        (∀ m ms, retrievingEnv.search v midCallState.TenantID midCallState.FromNumber =
            .ok (m :: ms) →
          ctx = "Contexto adicional de conversaciones anteriores:\n" ++
            String.join ((m :: ms).map (fun m => "- " ++ m.Text ++ "\n")))) ∧
      (∀ e, queryDialogflow defaultConfig retrievingEnv midCallState.DialogflowSessionID
          "quiero hablar con un agente" ctx = .err e →
        (HandleVoiceRequest defaultConfig retrievingEnv midCallStore speechRequest).response =
          respondWithError defaultConfig e) ∧
      (∀ r, queryDialogflow defaultConfig retrievingEnv midCallState.DialogflowSessionID
          "quiero hablar con un agente" ctx = .ok r →
        retrievingEnv.embed 1 r.ResponseText ≠ .panic →
        (HandleVoiceRequest defaultConfig retrievingEnv midCallStore speechRequest).response =
          .twiml (scriptAfterTurn defaultConfig r) ∧
        (retrievingEnv.newClientUpdateErr = none →
          ∃ u, (HandleVoiceRequest defaultConfig retrievingEnv midCallStore
              speechRequest).saved = [u] ∧
            u.RecentTurns.length = midCallState.RecentTurns.length + 2)) :=
  ⟨⟨rfl, rfl, rfl, rfl⟩, by decide, rfl, by decide, by rfl,
    C16_context_assembly defaultConfig retrievingEnv midCallStore speechRequest midCallState
      "quiero hablar con un agente" ⟨rfl, rfl, rfl, rfl⟩ (by decide) rfl (by decide)⟩

/-! ## The result of a Dialogflow query -/

/-- When Dialogflow answers with a query result whose first message has a text part with
at least one text, and whose match (if any) has an intent, `queryDialogflow` returns a
result: its response text is the first text of the first message and its custom payload
is the converted payload of the first message that has one, absent when none has. -/
theorem queryDialogflow_of_text_first (cfg : Config) (env : Env)
    (sessionID query contextText : String) (qr : QueryResult) (m0 : ResponseMessage)
    (rest : List ResponseMessage) (t0 : String) (ts : List String)
    (hclient : env.newSessionsServiceErr = none)
    (hresp : ∀ request, env.detectIntent request = .ok { QueryResult := some qr })
    (hmsgs : qr.ResponseMessages = m0 :: rest) (htext : m0.Text = some (t0 :: ts))
    (hmatch : ∀ im, qr.Match = some im → im.Intent ≠ none) :
    ∃ r, queryDialogflow cfg env sessionID query contextText = .ok r ∧
      r.SessionID = sessionID ∧ r.ResponseText = t0 ∧
      r.CustomPayload =
        match (m0 :: rest).find? (fun message => message.Payload.isSome) with
        | some message => ProtoStructToMap message.Payload
        | none => none := by
  unfold queryDialogflow
  simp only [hclient, hresp, hmsgs, htext]
  cases hM : qr.Match with
  | none =>
    simp only
    cases qr.CurrentPage <;> cases qr.Parameters <;>
      cases (m0 :: rest).find? (fun message => message.Payload.isSome) <;>
      exact ⟨_, rfl, rfl, rfl, rfl⟩
  | some im =>
    obtain ⟨intent, conf⟩ := im
    cases intent with
    | none => exact absurd rfl (hmatch _ hM)
    | some name =>
      simp only
      cases qr.CurrentPage <;> cases qr.Parameters <;>
        cases (m0 :: rest).find? (fun message => message.Payload.isSome) <;>
        exact ⟨_, rfl, rfl, rfl, rfl⟩

/-- Claim C17 (the code at the failing input). Dialogflow answers successfully with two
response messages, the first carrying the handoff payload and no text part, the second
the text `"Entendido."`. `queryDialogflow` panics on `ResponseMessages[0].Text.Text[0]`
and returns nothing, where the claim has the converted payload of the first message as
custom payload; with the same two messages in the other order it returns the text and
that payload. The handler that made the query writes no response. -/
theorem C17_payload_in_first_message_panics :
    queryDialogflow defaultConfig payloadFirstEnv "twilio-CA1" "quiero hablar con un agente"
      "" = .panic ∧
    queryDialogflow defaultConfig handoffEnv "twilio-CA1" "quiero hablar con un agente"
      "" = .ok handoffResult ∧
    (HandleVoiceRequest defaultConfig payloadFirstEnv midCallStore speechRequest).nluCalls =
      [speechCall] ∧
    (HandleVoiceRequest defaultConfig payloadFirstEnv midCallStore speechRequest).response =
      .panicked := by
  refine ⟨by rfl, by rfl, by rfl, by rfl⟩

/-! ## The identity of a call -/

/-- Claim C19. `GenerateSessionID callSid` is `"twilio-" ++ callSid`; every state that
`getOrCreateConversationState` creates for an event carries the call identifier of the
event and the session identifier `GenerateSessionID` of it; and for every loaded state
and every event, every state `HandleVoiceRequest` hands to the store has the session
identifier, call identifier, tenant, caller number, called number and start timestamp of
the loaded state. -/
theorem C19_session_identifier_is_stable (cfg : Config) (env : Env) (store : Store)
    (voiceRequest : VoiceRequest) :
    (∀ callSid, GenerateSessionID callSid = "twilio-" ++ callSid) ∧
    (∀ st ∈ (getOrCreateConversationState env store voiceRequest).2.2,
      st.CallSid = voiceRequest.CallSid ∧
      st.DialogflowSessionID = GenerateSessionID voiceRequest.CallSid) ∧
    (∀ s, Loads env store voiceRequest s →
      ∀ u ∈ (HandleVoiceRequest cfg env store voiceRequest).saved,
        u.DialogflowSessionID = s.DialogflowSessionID ∧ u.CallSid = s.CallSid ∧
        u.TenantID = s.TenantID ∧ u.FromNumber = s.FromNumber ∧
        u.ToNumber = s.ToNumber ∧ u.StartTimestamp = s.StartTimestamp) := by
  refine ⟨fun _ => rfl, ?_, ?_⟩
  · intro st hst
    unfold getOrCreateConversationState at hst
    cases h1 : env.newClientGetErr with
    | some e => simp [h1] at hst
    | none =>
      simp only [h1] at hst
      cases h2 : docGet env store voiceRequest.CallSid with
      | ok doc =>
        simp only [h2] at hst
        cases h3 : env.dataToErr <;> simp [h3] at hst
      | error e =>
        simp only [h2] at hst
        cases h4 : env.docCreateErr <;> simp only [h4, List.mem_singleton] at hst <;>
          subst hst <;> exact ⟨rfl, rfl⟩
  · intro s hload u hu
    obtain ⟨x, s1, ctx, r, _, hp, _, _, rfl⟩ := handle_saved_mem hload hu
    obtain ⟨_, e, _, _, _, rfl⟩ := prepareTurn_some hp
    unfold stateAfterTurn
    cases handoffPayloadOf cfg r.CustomPayload <;> exact ⟨rfl, rfl, rfl, rfl, rfl, rfl⟩

/-- Witness of C19: the state created for the first event of call `CA1` on the empty
store, and the state saved by a turn on the stored state with one completed turn. -/
theorem C19_session_identifier_is_stable_witness :
    ((getOrCreateConversationState workingEnv emptyStore speechRequest).2.2.map
      (fun st => st.DialogflowSessionID) = ["twilio-CA1"]) ∧
    (∀ st ∈ (getOrCreateConversationState workingEnv emptyStore speechRequest).2.2,
      st.CallSid = speechRequest.CallSid ∧
      st.DialogflowSessionID = GenerateSessionID speechRequest.CallSid) ∧
    Loads workingEnv midCallStore speechRequest midCallState ∧
    secondTurnState ∈
      (HandleVoiceRequest defaultConfig workingEnv midCallStore speechRequest).saved ∧
    (secondTurnState.DialogflowSessionID = midCallState.DialogflowSessionID ∧
      secondTurnState.CallSid = midCallState.CallSid ∧
      secondTurnState.TenantID = midCallState.TenantID ∧
      secondTurnState.FromNumber = midCallState.FromNumber ∧
      secondTurnState.ToNumber = midCallState.ToNumber ∧
      secondTurnState.StartTimestamp = midCallState.StartTimestamp) :=
  have hmem : secondTurnState ∈
      (HandleVoiceRequest defaultConfig workingEnv midCallStore speechRequest).saved :=
    (List.Mem.head [] : secondTurnState ∈ [secondTurnState])
  ⟨by rfl,
    (C19_session_identifier_is_stable defaultConfig workingEnv emptyStore speechRequest).2.1,
    ⟨rfl, rfl, rfl, rfl⟩, hmem,
    (C19_session_identifier_is_stable defaultConfig workingEnv midCallStore speechRequest).2.2
      midCallState ⟨rfl, rfl, rfl, rfl⟩ secondTurnState hmem⟩

/-! ## Telephone numbers -/

/-- For an input that does not start with `'+'`, `FormatPhoneNumber` returns `'+'`
followed by digits only: `"+56"` and the digits of the input when these are nine and the
first is `9` or `2`, and otherwise `"+"` and the digits of the input, in their order. -/
theorem FormatPhoneNumber_of_no_plus (phone : String)
    (hplus : phone.toList.head? ≠ some '+') :
    plusThenDigits (FormatPhoneNumber phone) = true ∧
    FormatPhoneNumber phone =
      if (phone.toList.filter (fun r => '0' ≤ r ∧ r ≤ '9')).length = 9 ∧
          ((phone.toList.filter (fun r => '0' ≤ r ∧ r ≤ '9')).head? = some '9' ∨
            (phone.toList.filter (fun r => '0' ≤ r ∧ r ≤ '9')).head? = some '2') then
        "+56" ++ String.mk (phone.toList.filter (fun r => '0' ≤ r ∧ r ≤ '9'))
      else "+" ++ String.mk (phone.toList.filter (fun r => '0' ≤ r ∧ r ≤ '9')) := by
  have hall : (phone.toList.filter (fun r => '0' ≤ r ∧ r ≤ '9')).all
      (fun r => '0' ≤ r ∧ r ≤ '9') = true := by
    rw [List.all_eq_true]
    intro c hc
    exact (List.mem_filter.mp hc).2
  have h56 : ("+56" ++ String.mk (phone.toList.filter (fun r => '0' ≤ r ∧ r ≤ '9'))).toList =
      '+' :: '5' :: '6' :: phone.toList.filter (fun r => '0' ≤ r ∧ r ≤ '9') := rfl
  have h1 : ("+" ++ String.mk (phone.toList.filter (fun r => '0' ≤ r ∧ r ≤ '9'))).toList =
      '+' :: phone.toList.filter (fun r => '0' ≤ r ∧ r ≤ '9') := rfl
  have h5 : decide ('0' ≤ '5' ∧ '5' ≤ '9') = true := by decide
  have h6 : decide ('0' ≤ '6' ∧ '6' ≤ '9') = true := by decide
  unfold FormatPhoneNumber
  simp only [hplus, ne_eq, not_false_eq_true, if_true, and_true]
  split_ifs
  · simp only [plusThenDigits, h56, List.all_cons, h5, h6, hall, Bool.and_self]
  · simp only [plusThenDigits, h1, hall]

/-- Claim C20 (the code at the failing input). The input `"+56 9 1234 5678"` starts with
`'+'` and is returned as it is, spaces included: the result is not `'+'` followed by
digits only, where the claim has that shape for every input. The same digits without the
leading `'+'` and the national number `"9 1234 5678"` both give `"+56912345678"`. -/
theorem C20_input_with_plus_is_returned_unchanged :
    FormatPhoneNumber "+56 9 1234 5678" = "+56 9 1234 5678" ∧
    plusThenDigits (FormatPhoneNumber "+56 9 1234 5678") = false ∧
    FormatPhoneNumber "56 9 1234 5678" = "+56912345678" ∧
    FormatPhoneNumber "9 1234 5678" = "+56912345678" ∧
    plusThenDigits "+56912345678" = true := by
  refine ⟨by decide, by decide, by decide, by decide, by decide⟩

/-! ## float64 rounding -/

theorem roundTiesEven_error (q : Rat) : |(roundTiesEven q : Rat) - q| ≤ 1 / 2 := by
  have h1 := Int.floor_le q
  have h2 := Int.lt_floor_add_one q
  unfold roundTiesEven
  split_ifs <;> push_cast <;> rw [abs_le] <;> constructor <;> linarith

theorem roundTiesEven_intCast (n : Int) : roundTiesEven (n : Rat) = n := by
  unfold roundTiesEven
  simp

theorem roundTiesEven_eq_of_lt (q : Rat) (k : Int) (h1 : (k : Rat) - 1 / 2 < q)
    (h2 : q < k + 1 / 2) : roundTiesEven q = k := by
  unfold roundTiesEven
  by_cases hk : (k : Rat) ≤ q
  · have hf : ⌊q⌋ = k := Int.floor_eq_iff.mpr ⟨hk, by linarith⟩
    rw [hf, if_pos (by linarith)]
  · have hf : ⌊q⌋ = k - 1 := Int.floor_eq_iff.mpr ⟨by push_cast; linarith, by push_cast; linarith⟩
    rw [hf, if_neg (by push_cast; linarith), if_pos (by push_cast; linarith)]
    omega

theorem roundFloat64_error_log (q : Rat) (hq : q ≠ 0) :
    |roundFloat64 q - q| ≤ 2 ^ (Int.log 2 |q| - 53) := by
  unfold roundFloat64
  rw [if_neg hq]
  have h2 : (2 : Rat) ≠ 0 := by norm_num
  have hs : (2 : Rat) ^ (52 - Int.log 2 |q|) * 2 ^ (Int.log 2 |q| - 52) = 1 := by
    rw [← zpow_add₀ h2]
    simp
  have ht : (0 : Rat) < 2 ^ (Int.log 2 |q| - 52) := by positivity
  have hE := roundTiesEven_error (q * 2 ^ (52 - Int.log 2 |q|))
  have hq' : q = q * 2 ^ (52 - Int.log 2 |q|) * 2 ^ (Int.log 2 |q| - 52) := by
    rw [mul_assoc, hs, mul_one]
  have h53 : (2 : Rat) ^ (Int.log 2 |q| - 53) = 1 / 2 * 2 ^ (Int.log 2 |q| - 52) := by
    rw [show Int.log 2 |q| - 53 = (Int.log 2 |q| - 52) + (-1) by ring, zpow_add₀ h2]
    norm_num
    ring
  calc |(roundTiesEven (q * 2 ^ (52 - Int.log 2 |q|)) : Rat) * 2 ^ (Int.log 2 |q| - 52) - q|
      = |((roundTiesEven (q * 2 ^ (52 - Int.log 2 |q|)) : Rat) -
          q * 2 ^ (52 - Int.log 2 |q|)) * 2 ^ (Int.log 2 |q| - 52)| := by
        congr 1
        rw [sub_mul, ← hq']
    _ = |(roundTiesEven (q * 2 ^ (52 - Int.log 2 |q|)) : Rat) -
          q * 2 ^ (52 - Int.log 2 |q|)| * 2 ^ (Int.log 2 |q| - 52) := by
        rw [abs_mul, abs_of_pos ht]
    _ ≤ 1 / 2 * 2 ^ (Int.log 2 |q| - 52) := by
        exact mul_le_mul_of_nonneg_right hE ht.le
    _ = 2 ^ (Int.log 2 |q| - 53) := h53.symm

theorem roundFloat64_error (q : Rat) (k : Int) (h : |q| < 2 ^ k) :
    |roundFloat64 q - q| ≤ 2 ^ (k - 54) := by
  by_cases hq : q = 0
  · subst hq
    simp only [roundFloat64, if_true, sub_zero, abs_zero]
    positivity
  · have hpos : 0 < |q| := abs_pos.mpr hq
    have hlog : Int.log 2 |q| < k := by
      rw [← Int.lt_zpow_iff_log_lt (by norm_num) hpos]
      exact_mod_cast h
    refine le_trans (roundFloat64_error_log q hq) ?_
    exact zpow_le_zpow_right₀ (by norm_num) (by omega)

theorem roundFloat64_intCast (n : Int) (h : |n| < 2 ^ 53) : roundFloat64 (n : Rat) = n := by
  by_cases hn : n = 0
  · subst hn
    simp [roundFloat64]
  · have hq : (n : Rat) ≠ 0 := by exact_mod_cast hn
    have hpos : 0 < |(n : Rat)| := abs_pos.mpr hq
    have hlt : |(n : Rat)| < 2 ^ (53 : Int) := by
      have h' : ((|n| : Int) : Rat) < ((2 ^ 53 : Int) : Rat) := by exact_mod_cast h
      rw [Int.cast_abs] at h'
      norm_num at h' ⊢
      exact h'
    have hlog : Int.log 2 |(n : Rat)| < 53 := by
      rw [← Int.lt_zpow_iff_log_lt (by norm_num) hpos]
      exact_mod_cast hlt
    obtain ⟨m, hm⟩ := Int.eq_ofNat_of_zero_le (show 0 ≤ 52 - Int.log 2 |(n : Rat)| by omega)
    have hm' : Int.log 2 |(n : Rat)| - 52 = -(m : Int) := by omega
    unfold roundFloat64
    rw [if_neg hq, hm, hm']
    have hcast : (n : Rat) * 2 ^ ((m : Nat) : Int) = ((n * 2 ^ m : Int) : Rat) := by
      push_cast
      rw [zpow_natCast]
    rw [hcast, roundTiesEven_intCast]
    push_cast
    rw [zpow_neg, zpow_natCast]
    field_simp

theorem seconds_of_nonneg (S N : Int) (hS0 : 0 ≤ S) (hS : S < 16777216) (hN0 : 0 ≤ N)
    (hN : N < 1000000000) :
    truncToInt (roundFloat64 (roundFloat64 (S : Rat) +
      roundFloat64 (roundFloat64 (N : Rat) / 1000000000))) = S := by
  have hSq0 : (0 : Rat) ≤ S := by exact_mod_cast hS0
  have hSq : (S : Rat) ≤ 16777215 := by
    have : S ≤ 16777215 := by omega
    exact_mod_cast this
  have hNq0 : (0 : Rat) ≤ N := by exact_mod_cast hN0
  have hNq : (N : Rat) ≤ 999999999 := by
    have : N ≤ 999999999 := by omega
    exact_mod_cast this
  have hSabs : |S| < 2 ^ 53 := by
    rw [abs_of_nonneg hS0]
    omega
  have hNabs : |N| < 2 ^ 53 := by
    rw [abs_of_nonneg hN0]
    omega
  rw [roundFloat64_intCast S hSabs, roundFloat64_intCast N hNabs]
  by_cases hN1 : N = 0
  · subst hN1
    have h0 : roundFloat64 (((0 : Int) : Rat) / 1000000000) = 0 := by simp [roundFloat64]
    rw [h0, add_zero, roundFloat64_intCast S hSabs]
    unfold truncToInt
    rw [if_pos hSq0]
    exact Int.floor_intCast S
  · have hN1q : (1 : Rat) ≤ N := by
      have : 1 ≤ N := by omega
      exact_mod_cast this
    have hfrac : |(N : Rat) / 1000000000| < 2 ^ (0 : Int) := by
      rw [abs_of_nonneg (by positivity), zpow_zero]
      linarith
    have hx := roundFloat64_error ((N : Rat) / 1000000000) 0 hfrac
    have h54 : (2 : Rat) ^ ((0 : Int) - 54) = 1 / 18014398509481984 := by norm_num
    rw [h54, abs_le] at hx
    generalize roundFloat64 ((N : Rat) / 1000000000) = x1 at hx ⊢
    have hsum : |(S : Rat) + x1| < 2 ^ (24 : Int) := by
      rw [abs_lt]
      constructor <;> norm_num <;> linarith
    have hz := roundFloat64_error ((S : Rat) + x1) 24 hsum
    have h30 : (2 : Rat) ^ ((24 : Int) - 54) = 1 / 1073741824 := by norm_num
    rw [h30, abs_le] at hz
    generalize roundFloat64 ((S : Rat) + x1) = y at hz ⊢
    unfold truncToInt
    rw [if_pos (by linarith)]
    exact Int.floor_eq_iff.mpr ⟨by linarith, by linarith⟩

theorem seconds_of_nonpos (S N : Int) (hS0 : 0 ≤ S) (hS : S < 16777216) (hN0 : 0 ≤ N)
    (hN : N < 1000000000) (hne : S ≠ 0 ∨ N ≠ 0) :
    truncToInt (roundFloat64 (roundFloat64 ((-S : Int) : Rat) +
      roundFloat64 (roundFloat64 ((-N : Int) : Rat) / 1000000000))) = -S := by
  have hSq0 : (0 : Rat) ≤ S := by exact_mod_cast hS0
  have hSq : (S : Rat) ≤ 16777215 := by
    have : S ≤ 16777215 := by omega
    exact_mod_cast this
  have hNq0 : (0 : Rat) ≤ N := by exact_mod_cast hN0
  have hNq : (N : Rat) ≤ 999999999 := by
    have : N ≤ 999999999 := by omega
    exact_mod_cast this
  have hSabs : |(-S : Int)| < 2 ^ 53 := by
    rw [abs_neg, abs_of_nonneg hS0]
    omega
  have hNabs : |(-N : Int)| < 2 ^ 53 := by
    rw [abs_neg, abs_of_nonneg hN0]
    omega
  rw [roundFloat64_intCast (-S) hSabs, roundFloat64_intCast (-N) hNabs]
  by_cases hN1 : N = 0
  · subst hN1
    have hS1 : S ≠ 0 := by
      rcases hne with h | h
      · exact h
      · exact absurd rfl h
    have hS1q : (1 : Rat) ≤ S := by
      have : 1 ≤ S := by omega
      exact_mod_cast this
    have h0 : roundFloat64 (((-0 : Int) : Rat) / 1000000000) = 0 := by simp [roundFloat64]
    rw [h0, add_zero, roundFloat64_intCast (-S) hSabs]
    unfold truncToInt
    rw [if_neg (by push_cast; linarith)]
    exact Int.ceil_intCast (-S)
  · have hN1q : (1 : Rat) ≤ N := by
      have : 1 ≤ N := by omega
      exact_mod_cast this
    have hfrac : |((-N : Int) : Rat) / 1000000000| < 2 ^ (0 : Int) := by
      rw [abs_lt, zpow_zero]
      push_cast
      constructor <;> linarith
    have hx := roundFloat64_error (((-N : Int) : Rat) / 1000000000) 0 hfrac
    have h54 : (2 : Rat) ^ ((0 : Int) - 54) = 1 / 18014398509481984 := by norm_num
    rw [h54, abs_le] at hx
    push_cast at hx ⊢
    generalize roundFloat64 (-(N : Rat) / 1000000000) = x1 at hx ⊢
    have hsum : |-(S : Rat) + x1| < 2 ^ (24 : Int) := by
      rw [abs_lt]
      constructor <;> norm_num <;> linarith
    have hz := roundFloat64_error (-(S : Rat) + x1) 24 hsum
    have h30 : (2 : Rat) ^ ((24 : Int) - 54) = 1 / 1073741824 := by norm_num
    rw [h30, abs_le] at hz
    generalize roundFloat64 (-(S : Rat) + x1) = y at hz ⊢
    unfold truncToInt
    rw [if_neg (by linarith)]
    exact Int.ceil_eq_iff.mpr ⟨by push_cast; linarith, by push_cast; linarith⟩

/-- Below `2^24` seconds in absolute value, `int(d.Seconds())` is the number of whole
seconds of `d`, truncated toward zero. -/
theorem seconds_exact (d : Int) (h : |d| < 16777216 * 1000000000) :
    truncToInt (durationSeconds d) = d.tdiv 1000000000 := by
  unfold durationSeconds
  by_cases hd : 0 ≤ d
  · rw [abs_of_nonneg hd] at h
    rw [Int.tdiv_eq_ediv hd (by norm_num), Int.tmod_eq_emod hd (by norm_num)]
    exact seconds_of_nonneg (d / 1000000000) (d % 1000000000) (by omega) (by omega) (by omega)
      (by omega)
  · have hd' : 0 ≤ -d := by omega
    rw [abs_of_neg (by omega)] at h
    have hdiv : d.tdiv 1000000000 = -((-d) / 1000000000) := by
      have h1 := Int.neg_tdiv (-d) 1000000000
      rw [neg_neg] at h1
      rw [h1, Int.tdiv_eq_ediv hd' (by norm_num)]
    have hmod : d.tmod 1000000000 = -((-d) % 1000000000) := by
      have h2 := Int.tdiv_add_tmod d 1000000000
      rw [hdiv] at h2
      omega
    rw [hdiv, hmod]
    exact seconds_of_nonpos ((-d) / 1000000000) ((-d) % 1000000000) (by omega) (by omega)
      (by omega) (by omega) (by omega)

theorem roundFloat64_eq (q : Rat) (e m : Int) (hq : 0 < q) (he : 2 ^ e ≤ q)
    (he' : q < 2 ^ (e + 1)) (h1 : (m : Rat) - 1 / 2 < q * 2 ^ (52 - e))
    (h2 : q * 2 ^ (52 - e) < m + 1 / 2) : roundFloat64 q = m * 2 ^ (e - 52) := by
  have hlog : Int.log 2 |q| = e := by
    rw [abs_of_pos hq]
    apply le_antisymm
    · have hlt : Int.log 2 q < e + 1 :=
        (Int.lt_zpow_iff_log_lt (by norm_num : 1 < 2) hq).mp (by exact_mod_cast he')
      omega
    · exact (Int.zpow_le_iff_le_log (by norm_num : 1 < 2) hq).mp (by exact_mod_cast he)
  unfold roundFloat64
  rw [if_neg hq.ne', hlog, roundTiesEven_eq_of_lt _ m h1 h2]

theorem seconds_rounds_up :
    truncToInt (durationSeconds 16777216999999999) = 16777217 := by
  have ht : (16777216999999999 : Int).tdiv 1000000000 = 16777216 := by decide
  have hm : (16777216999999999 : Int).tmod 1000000000 = 999999999 := by decide
  have hx : roundFloat64 (((999999999 : Int) : Rat) / 1000000000) =
      (9007199245733793 : Int) * 2 ^ ((-1 : Int) - 52) :=
    roundFloat64_eq _ (-1) 9007199245733793 (by norm_num) (by norm_num) (by norm_num)
      (by norm_num) (by norm_num)
  have hz : roundFloat64 (((16777216 : Int) : Rat) +
      (9007199245733793 : Int) * 2 ^ ((-1 : Int) - 52)) =
      (4503599895805952 : Int) * 2 ^ ((24 : Int) - 52) :=
    roundFloat64_eq _ 24 4503599895805952 (by norm_num) (by norm_num) (by norm_num)
      (by norm_num) (by norm_num)
  have hv : ((4503599895805952 : Int) : Rat) * 2 ^ ((24 : Int) - 52) = ((16777217 : Int) : Rat) := by
    norm_num
  unfold durationSeconds
  rw [ht, hm, roundFloat64_intCast 16777216 (by decide),
    roundFloat64_intCast 999999999 (by decide), hx, hz, hv]
  unfold truncToInt
  rw [if_pos (by norm_num)]
  exact Int.floor_intCast 16777217

/-! ## The transcript payload -/

/-- The payload of `sendTranscriptToHistoryService` does not depend on the outcome of the
post, and the state is the one passed in. -/
theorem sendTranscript_payload (now : Time)
    (post : FullTranscriptPayload → Except String HttpResponse) (state : ConversationState)
    (dialogflowResult : Option DialogflowQueryResult) :
    (sendTranscriptToHistoryService now post state dialogflowResult).payload =
      (match state.HandoffOccurred, state.HandoffTimestamp with
        | true, some endTime =>
          { CallSid := state.CallSid
            TenantID := state.TenantID
            FromNumber := state.FromNumber
            ToNumber := state.ToNumber
            StartTimestamp := state.StartTimestamp
            EndTimestamp := some endTime
            DurationSeconds :=
              truncToInt (durationSeconds (timeSub endTime state.StartTimestamp))
            TranscriptEntries := state.RecentTurns
            DialogflowMetadata := dialogflowResult
            HandoffOccurred := state.HandoffOccurred
            HandoffReason := state.HandoffReason
            HandoffTimestamp := state.HandoffTimestamp
            CreatedAt := now }
        | _, _ =>
          { CallSid := state.CallSid
            TenantID := state.TenantID
            FromNumber := state.FromNumber
            ToNumber := state.ToNumber
            StartTimestamp := state.StartTimestamp
            TranscriptEntries := state.RecentTurns
            DialogflowMetadata := dialogflowResult
            HandoffOccurred := state.HandoffOccurred
            HandoffReason := state.HandoffReason
            HandoffTimestamp := state.HandoffTimestamp
            CreatedAt := now }) ∧
    (sendTranscriptToHistoryService now post state dialogflowResult).state = state := by
  unfold sendTranscriptToHistoryService
  simp only
  split <;> split <;> exact ⟨rfl, rfl⟩

theorem timeSub_of_lt (t u : Int) (h : |t - u| < 16777216 * 1000000000) :
    timeSub t u = t - u := by
  rw [abs_lt] at h
  obtain ⟨h1, h2⟩ := h
  have hpow : (2 : Int) ^ 63 = 9223372036854775808 := by norm_num
  have h3 : ¬ t - u > 2 ^ 63 - 1 := by
    rw [hpow]
    omega
  have h4 : ¬ t - u < -2 ^ 63 := by
    rw [hpow]
    omega
  unfold timeSub
  rw [if_neg h3, if_neg h4]

/-- Counterexample to C18 as stated: the state started at time 0 and was handed off
`2^24` seconds and 999999999 nanoseconds later. The whole number of seconds between the
two, truncated toward zero, is 16777216; the payload has `DurationSeconds = 16777217`,
because `Duration.Seconds` adds the seconds and the fraction in `float64` and the sum
rounds up to the next whole number. -/
theorem C18_counterexample_duration_rounds_up :
    longCallState.HandoffOccurred = true ∧
    longCallState.HandoffTimestamp = some 16777216999999999 ∧
    longCallState.StartTimestamp = 0 ∧
    ((16777216999999999 : Int) - 0).tdiv 1000000000 = 16777216 ∧
    (sendTranscriptToHistoryService 0 acceptingPost longCallState
      (some textResult)).payload.DurationSeconds = 16777217 := by
  refine ⟨rfl, rfl, rfl, by decide, ?_⟩
  rw [(sendTranscript_payload 0 acceptingPost longCallState (some textResult)).1]
  have ht : timeSub 16777216999999999 longCallState.StartTimestamp = 16777216999999999 := by
    decide
  show truncToInt (durationSeconds (timeSub 16777216999999999 longCallState.StartTimestamp)) =
    16777217
  rw [ht]
  exact seconds_rounds_up

/-- Claim C18 (amended). The payload built by `sendTranscriptToHistoryService` has the call
identifier, tenant, caller and called numbers, start timestamp, recent turns and the three
handoff fields of the state, the given Dialogflow result and the clock reading as creation
time, and the state is not modified. When `HandoffOccurred` is true and `HandoffTimestamp`
is set to `t`, the end timestamp is `t` and `DurationSeconds` is `int(d.Seconds())` for
`d = t.Sub(StartTimestamp)`; when `t` and the start are less than `2^24` seconds apart this
is the whole number of seconds from the start to `t`, truncated toward zero. Otherwise the
end timestamp is absent and `DurationSeconds` is 0. -/
theorem C18_transcript_payload (now : Time)
    (post : FullTranscriptPayload → Except String HttpResponse) (state : ConversationState)
    (dialogflowResult : Option DialogflowQueryResult) :
    ((sendTranscriptToHistoryService now post state dialogflowResult).payload.CallSid =
        state.CallSid ∧
      (sendTranscriptToHistoryService now post state dialogflowResult).payload.TenantID =
        state.TenantID ∧
      (sendTranscriptToHistoryService now post state dialogflowResult).payload.FromNumber =
        state.FromNumber ∧
      (sendTranscriptToHistoryService now post state dialogflowResult).payload.ToNumber =
        state.ToNumber ∧
      (sendTranscriptToHistoryService now post state dialogflowResult).payload.StartTimestamp =
        state.StartTimestamp ∧
      (sendTranscriptToHistoryService now post state
        dialogflowResult).payload.TranscriptEntries = state.RecentTurns ∧
      (sendTranscriptToHistoryService now post state
        dialogflowResult).payload.HandoffOccurred = state.HandoffOccurred ∧
      (sendTranscriptToHistoryService now post state
        dialogflowResult).payload.HandoffReason = state.HandoffReason ∧
      (sendTranscriptToHistoryService now post state
        dialogflowResult).payload.HandoffTimestamp = state.HandoffTimestamp ∧
      (sendTranscriptToHistoryService now post state
        dialogflowResult).payload.DialogflowMetadata = dialogflowResult ∧
      (sendTranscriptToHistoryService now post state dialogflowResult).payload.CreatedAt =
        now ∧
      (sendTranscriptToHistoryService now post state dialogflowResult).state = state) ∧
    (∀ t : Int, state.HandoffOccurred = true → state.HandoffTimestamp = some t →
      (sendTranscriptToHistoryService now post state dialogflowResult).payload.EndTimestamp =
        some t ∧
      (sendTranscriptToHistoryService now post state
        dialogflowResult).payload.DurationSeconds =
          truncToInt (durationSeconds (timeSub t state.StartTimestamp)) ∧
      (|t - state.StartTimestamp| < 16777216 * 1000000000 →
        (sendTranscriptToHistoryService now post state
          dialogflowResult).payload.DurationSeconds =
            (t - state.StartTimestamp).tdiv 1000000000)) ∧
    ((state.HandoffOccurred = false ∨ state.HandoffTimestamp = none) →
      (sendTranscriptToHistoryService now post state dialogflowResult).payload.EndTimestamp =
        none ∧
      (sendTranscriptToHistoryService now post state
        dialogflowResult).payload.DurationSeconds = 0) := by
  obtain ⟨hp, hs⟩ := sendTranscript_payload now post state dialogflowResult
  rw [hp, hs]
  refine ⟨?_, ?_, ?_⟩
  · split <;> exact ⟨rfl, rfl, rfl, rfl, rfl, rfl, rfl, rfl, rfl, rfl, rfl, rfl⟩
  · intro t hO hT
    rw [hO, hT]
    refine ⟨rfl, rfl, ?_⟩
    intro hlt
    show truncToInt (durationSeconds (timeSub t state.StartTimestamp)) = _
    rw [timeSub_of_lt t state.StartTimestamp hlt]
    exact seconds_exact _ hlt
  · intro h
    rcases h with hO | hT
    · rw [hO]
      exact ⟨rfl, rfl⟩
    · rw [hT]
      cases state.HandoffOccurred <;> exact ⟨rfl, rfl⟩

/-- Witness of C18 (amended): a state handed off 90.5 seconds after its start; the payload
ends at the handoff and has `DurationSeconds = 90`. -/
theorem C18_transcript_payload_witness :
    shortCallState.HandoffOccurred = true ∧
    shortCallState.HandoffTimestamp = some 91500000000 ∧
    |(91500000000 : Int) - shortCallState.StartTimestamp| < 16777216 * 1000000000 ∧
    ((91500000000 : Int) - shortCallState.StartTimestamp).tdiv 1000000000 = 90 ∧
    (sendTranscriptToHistoryService 5 acceptingPost shortCallState
      (some textResult)).payload.EndTimestamp = some 91500000000 ∧
    (sendTranscriptToHistoryService 5 acceptingPost shortCallState
      (some textResult)).payload.DurationSeconds =
        ((91500000000 : Int) - shortCallState.StartTimestamp).tdiv 1000000000 ∧
    (sendTranscriptToHistoryService 5 acceptingPost shortCallState
      (some textResult)).payload.TranscriptEntries = shortCallState.RecentTurns :=
  have h := C18_transcript_payload 5 acceptingPost shortCallState (some textResult)
  have hlt : |(91500000000 : Int) - shortCallState.StartTimestamp| <
      16777216 * 1000000000 := by decide
  ⟨rfl, rfl, hlt, by decide, (h.2.1 91500000000 rfl rfl).1,
    (h.2.1 91500000000 rfl rfl).2.2 hlt, h.1.2.2.2.2.2.1⟩

/-! ## Totality of the Dialogflow query -/

/-- Whenever the client is created and Dialogflow answers without error with a query
result that has no response message, or whose first message has no text part, or whose
first message has a text part with no text, `queryDialogflow` panics. -/
theorem queryDialogflow_panics (cfg : Config) (env : Env)
    (sessionID query contextText : String) (qr : QueryResult)
    (hclient : env.newSessionsServiceErr = none)
    (hresp : ∀ request, env.detectIntent request = .ok { QueryResult := some qr })
    (hbad : qr.ResponseMessages = [] ∨
      ∃ m0 rest, qr.ResponseMessages = m0 :: rest ∧ (m0.Text = none ∨ m0.Text = some [])) :
    queryDialogflow cfg env sessionID query contextText = .panic := by
  unfold queryDialogflow
  simp only [hclient, hresp]
  rcases hbad with h | ⟨m0, rest, h, ht | ht⟩
  · simp only [h]
  · simp only [h, ht]
  · simp only [h, ht]

/-- Claim C21 (the code at the failing inputs). Dialogflow answers without error, in turn
with a query result that has no response message, with one whose first message carries
only a payload, and with one whose first message has an empty text list. In each case
`queryDialogflow` panics on `ResponseMessages[0].Text.Text[0]`: it returns neither a
result nor an error, where the claim has one of the two. -/
theorem C21_queryDialogflow_panics_on_successful_answers :
    (∀ request, emptyAnswerEnv.detectIntent request = .ok emptyAnswer) ∧
    (∀ request, payloadFirstEnv.detectIntent request = .ok payloadFirstAnswer) ∧
    (∀ request, emptyTextEnv.detectIntent request = .ok emptyTextAnswer) ∧
    queryDialogflow defaultConfig emptyAnswerEnv "twilio-CA1" "hola" "" = .panic ∧
    queryDialogflow defaultConfig payloadFirstEnv "twilio-CA1" "hola" "" = .panic ∧
    queryDialogflow defaultConfig emptyTextEnv "twilio-CA1" "hola" "" = .panic ∧
    (∀ r, queryDialogflow defaultConfig emptyAnswerEnv "twilio-CA1" "hola" "" ≠ .ok r) ∧
    (∀ e, queryDialogflow defaultConfig emptyAnswerEnv "twilio-CA1" "hola" "" ≠ .err e) := by
  have h1 : queryDialogflow defaultConfig emptyAnswerEnv "twilio-CA1" "hola" "" = .panic := by
    rfl
  refine ⟨fun _ => rfl, fun _ => rfl, fun _ => rfl, h1, by rfl, by rfl, ?_, ?_⟩
  · intro r h
    rw [h1] at h
    cases h
  · intro e h
    rw [h1] at h
    cases h

/-! ## Creation of a state when the load fails -/

/-- Whenever the client is created, `docRef.Get` fails for a reason other than the
document being absent and the creating write succeeds, `getOrCreateConversationState`
returns a fresh state without error and the store holds that state under the call
identifier, whatever it held before. -/
theorem getOrCreate_of_get_error (env : Env) (store : Store) (voiceRequest : VoiceRequest)
    (e : String) (hclient : env.newClientGetErr = none) (hget : env.docGetErr = some e)
    (hcreate : env.docCreateErr = none) :
    ∃ st, getOrCreateConversationState env store voiceRequest =
        (.ok st, store.set voiceRequest.CallSid st, [st]) ∧
      st.CallSid = voiceRequest.CallSid ∧ st.CurrentTurnIndex = 0 ∧ st.RecentTurns = [] ∧
      (store.set voiceRequest.CallSid st) voiceRequest.CallSid = some st := by
  refine ⟨{ CallSid := voiceRequest.CallSid
            TenantID := "default"
            FromNumber := voiceRequest.From
            ToNumber := voiceRequest.To
            StartTimestamp := env.nowCreate
            LastUpdateTimestamp := env.nowCreate
            DialogflowSessionID := GenerateSessionID voiceRequest.CallSid
            CurrentTurnIndex := 0
            RecentTurns := []
            HandoffOccurred := false }, ?_, rfl, rfl, rfl, ?_⟩
  · simp only [getOrCreateConversationState, docGet, hclient, hget, hcreate]
  · simp [Store.set]

/-- Claim C22 (the code at the failing input). The store holds the state of call `CA1`
with one completed turn and two recent turns; `docRef.Get` fails for a reason other than
the document being absent. `getOrCreateConversationState` returns no error but a fresh
state with turn index 0, and writes it: the store then holds the fresh state in place of
the stored one, and the handler answers the event with the greeting. -/
theorem C22_load_failure_replaces_stored_state :
    midCallStore "CA1" = some midCallState ∧
    midCallState.CurrentTurnIndex = 1 ∧ midCallState.RecentTurns.length = 2 ∧
    failingGetEnv.docGetErr = some "rpc error: code = Unavailable" ∧
    (getOrCreateConversationState failingGetEnv midCallStore speechRequest).1 =
      .ok recreatedState ∧
    (getOrCreateConversationState failingGetEnv midCallStore speechRequest).2.2 =
      [recreatedState] ∧
    (getOrCreateConversationState failingGetEnv midCallStore speechRequest).2.1 "CA1" =
      some recreatedState ∧
    recreatedState.CurrentTurnIndex = 0 ∧ recreatedState.RecentTurns = [] ∧
    (HandleVoiceRequest defaultConfig failingGetEnv midCallStore speechRequest).response =
      .twiml (generateWelcomeTwiML defaultConfig) ∧
    (HandleVoiceRequest defaultConfig failingGetEnv midCallStore speechRequest).store "CA1" =
      some recreatedState := by
  refine ⟨rfl, rfl, rfl, rfl, by rfl, by rfl, by rfl, rfl, rfl, by rfl, by rfl⟩

end Kairosia
